import Mathlib

/-
  Verification development for the money-system repository: a shallow
  embedding in Lean 4 of the double-entry ledger (ledger.py), the
  transaction catalogue (flows.py), the configuration (config.py) and the
  per-period stepping algorithm (model.py).  Python floats are modelled as
  rationals; Python dicts as insertion-ordered association lists; raising
  as the Except monad.
-/

namespace MoneySystem

/-- Lookup in an association list (first matching key), modelling Python
    dict access `d[k]` returning an optional value. -/
def lookupA {α : Type} : List (String × α) → String → Option α
  | [], _ => none
  | kv :: rest, key => if kv.1 = key then some kv.2 else lookupA rest key

/-- Lookup with default, modelling Python `d.get(k, default)`. -/
def lookupD {α : Type} (xs : List (String × α)) (key : String) (d : α) : α :=
  (lookupA xs key).getD d

/-- Errors raised by the engine.  `unknownAccount` models Python KeyError
    (missing sector or account), `unbalanced` the ValueError of
    Ledger.apply, `invariantViolation` the ValueError of
    SectorLedger.assert_balanced, and `attributeError` the AttributeError
    obtained by calling a method on None. -/
inductive LedgerError : Type
  | unknownAccount (name : String)
  | unbalanced (txName : String) (imbalance : ℚ)
  | invariantViolation (sector : String)
  | attributeError
deriving DecidableEq

/-- Account categories (ledger.py CATEGORY_SIGN keys). -/
inductive Category : Type
  | asset
  | liability
  | equity
deriving DecidableEq

/-- ledger.py CATEGORY_SIGN: asset +1, liability -1, equity -1. -/
def CATEGORY_SIGN : Category → ℚ
  | .asset => 1
  | .liability => -1
  | .equity => -1

/-- ledger.py Account: a named balance with a category. -/
structure Account : Type where
  name : String
  category : Category
  balance : ℚ
deriving DecidableEq

/-- ledger.py SectorLedger: a named ordered mapping of account names to
    accounts. -/
structure SectorLedger : Type where
  name : String
  accounts : List (String × Account)
deriving DecidableEq

/-- Add `delta` to the balance of the first account stored under `key`
    (Python: `self.accounts[account_name].apply(delta)`). -/
def updateBal : List (String × Account) → String → ℚ → List (String × Account)
  | [], _, _ => []
  | kv :: rest, key, d =>
    if kv.1 = key then (kv.1, { kv.2 with balance := kv.2.balance + d }) :: rest
    else kv :: updateBal rest key d

/-- SectorLedger.apply: raises KeyError when the account name is unknown,
    otherwise adds the delta to the account balance. -/
def SectorLedger.applyAcc (s : SectorLedger) (account_name : String) (delta : ℚ) :
    Except LedgerError SectorLedger :=
  match lookupA s.accounts account_name with
  | none => .error (.unknownAccount account_name)
  | some _ => .ok { s with accounts := updateBal s.accounts account_name delta }

/-- Sum of the balances of the accounts of category `c` (the
    `sum(... if a.category == ...)` pattern of SectorLedger). -/
def sumCat (c : Category) (accounts : List (String × Account)) : ℚ :=
  (accounts.map fun kv => if kv.2.category = c then kv.2.balance else 0).sum

/-- SectorLedger.assets_total. -/
def SectorLedger.assets_total (s : SectorLedger) : ℚ := sumCat .asset s.accounts

/-- SectorLedger.liabilities_total. -/
def SectorLedger.liabilities_total (s : SectorLedger) : ℚ := sumCat .liability s.accounts

/-- SectorLedger.equity_total. -/
def SectorLedger.equity_total (s : SectorLedger) : ℚ := sumCat .equity s.accounts

/-- SectorLedger.net_position = assets_total - liabilities_total. -/
def SectorLedger.net_position (s : SectorLedger) : ℚ :=
  s.assets_total - s.liabilities_total

/-- Loop body of SectorLedger.recompute_equity: overwrite the balance of
    an equity account with the split value, leave other accounts alone. -/
def setEquityBal (v : ℚ) (kv : String × Account) : String × Account :=
  if kv.2.category = Category.equity then (kv.1, { kv.2 with balance := v }) else kv

/-- SectorLedger.recompute_equity: if the sector has equity accounts, set
    every equity account balance to (assets - liabilities) / count. -/
def SectorLedger.recompute_equity (s : SectorLedger) : SectorLedger :=
  let n := (s.accounts.filter fun kv => kv.2.category = Category.equity).length
  if n = 0 then s
  else
    let residual := s.assets_total - s.liabilities_total
    let split := residual / (n : ℚ)
    { s with accounts := s.accounts.map (setEquityBal split) }

/-- SectorLedger.assert_balanced: raises when |A - L - E| > tol. -/
def SectorLedger.assert_balanced (s : SectorLedger) (tol : ℚ := 1/1000000) :
    Except LedgerError Unit :=
  if |s.assets_total - s.liabilities_total - s.equity_total| > tol then
    .error (.invariantViolation s.name)
  else .ok ()

/-- ledger.py Posting. -/
structure Posting : Type where
  sector : String
  account : String
  amount : ℚ
deriving DecidableEq

/-- ledger.py Transaction. -/
structure Transaction : Type where
  name : String
  postings : List Posting
  meta : List (String × ℚ) := []
deriving DecidableEq

/-- ledger.py Ledger: the sector mapping plus the append-only log. -/
structure Ledger : Type where
  sectors : List (String × SectorLedger)
  transactions : List Transaction := []
deriving DecidableEq

/-- Loop body of Transaction.total: add one posting's signed amount, the
    sign taken from the referenced account's category; a missing sector
    or account raises KeyError. -/
def totalStep (l : Ledger) (acc : ℚ) (p : Posting) : Except LedgerError ℚ :=
  match lookupA l.sectors p.sector with
  | none => .error (.unknownAccount p.sector)
  | some s =>
    match lookupA s.accounts p.account with
    | none => .error (.unknownAccount p.account)
    | some a => .ok (acc + p.amount * CATEGORY_SIGN a.category)

/-- Transaction.total: fold the signed posting amounts from 0. -/
def Transaction.total (tx : Transaction) (l : Ledger) : Except LedgerError ℚ :=
  tx.postings.foldlM (totalStep l) 0

/-- Replace the first sector stored under `key`. -/
def updateSec : List (String × SectorLedger) → String → SectorLedger →
    List (String × SectorLedger)
  | [], _, _ => []
  | kv :: rest, key, s' =>
    if kv.1 = key then (kv.1, s') :: rest else kv :: updateSec rest key s'

/-- One iteration of the mutation loop of Ledger.apply:
    `self.sectors[p.sector].apply(p.account, p.amount)`. -/
def Ledger.applyPosting (l : Ledger) (p : Posting) : Except LedgerError Ledger :=
  match lookupA l.sectors p.sector with
  | none => .error (.unknownAccount p.sector)
  | some s =>
    match s.applyAcc p.account p.amount with
    | .error e => .error e
    | .ok s' => .ok { l with sectors := updateSec l.sectors p.sector s' }

/-- The mutation loop of Ledger.apply over all postings. -/
def Ledger.applyPostings (l : Ledger) (ps : List Posting) : Except LedgerError Ledger :=
  ps.foldlM Ledger.applyPosting l

/-- Ledger.apply: validate the signed total, reject when it exceeds the
    tolerance, otherwise apply every posting and append the transaction to
    the log. -/
def Ledger.apply (l : Ledger) (tx : Transaction) (tol : ℚ := 1/1000000) :
    Except LedgerError Ledger :=
  match tx.total l with
  | .error e => .error e
  | .ok imbalance =>
    if |imbalance| > tol then .error (.unbalanced tx.name imbalance)
    else
      match l.applyPostings tx.postings with
      | .error e => .error e
      | .ok l' => .ok { l' with transactions := l'.transactions ++ [tx] }

/-- Loop body of Ledger.recompute_equity: recompute one sector's equity
    and check its balance-sheet identity. -/
def recomputeSectorStep (kv : String × SectorLedger) :
    Except LedgerError (String × SectorLedger) :=
  let s' := kv.2.recompute_equity
  match s'.assert_balanced with
  | .error e => Except.error e
  | .ok _ => Except.ok (kv.1, s')

/-- Ledger.recompute_equity: recompute each sector's equity and check its
    balance-sheet identity.  The Python method returns None; the new
    ledger here is the passed-through mutable state. -/
def Ledger.recompute_equity (l : Ledger) : Except LedgerError Ledger :=
  match l.sectors.mapM recomputeSectorStep with
  | .error e => .error e
  | .ok sectors' => .ok { l with sectors := sectors' }

/-- Ledger.snapshot: flattened mapping "sector_key:account.name" to
    balance, in sector and account order. -/
def Ledger.snapshot (l : Ledger) : List (String × ℚ) :=
  l.sectors.flatMap fun kv =>
    kv.2.accounts.map fun av => (kv.1 ++ ":" ++ av.2.name, av.2.balance)

/-- ledger.py default_chart: the fixed chart of accounts, with starting
    balances drawn from `initial` (missing entries default to 0). -/
def make_sector (initial : List (String × List (String × ℚ))) (name : String)
    (account_defs : List (String × Category)) : SectorLedger :=
  { name := name,
    accounts := account_defs.map fun d =>
      (d.1, { name := d.1, category := d.2,
              balance := lookupD (lookupD initial name []) d.1 0 : Account }) }

/-- The default chart of accounts (ledger.py default_chart). -/
def default_chart (initial : List (String × List (String × ℚ))) :
    List (String × SectorLedger) :=
  [("Private", make_sector initial "Private"
      [("Deposits", .asset), ("Loans", .liability), ("GovBonds", .asset),
       ("Currency", .asset), ("NetWorth", .equity)]),
   ("Banks", make_sector initial "Banks"
      [("Loans", .asset), ("Reserves", .asset), ("Deposits", .liability),
       ("BankEquity", .equity)]),
   ("Government", make_sector initial "Government"
      [("TGA", .asset), ("GovBonds", .liability), ("GovEquity", .equity)]),
   ("CentralBank", make_sector initial "CentralBank"
      [("Reserves", .liability), ("Currency", .liability), ("TGA", .liability),
       ("GovBonds", .asset), ("CBEq", .equity)])]

/-- ledger.py build_default_ledger: construct the chart and recompute
    equity once. -/
def build_default_ledger (initial : List (String × List (String × ℚ))) :
    Except LedgerError Ledger :=
  Ledger.recompute_equity { sectors := default_chart initial, transactions := [] }

/-- flows.py tx_government_spending. -/
def tx_government_spending (amount : ℚ) : Transaction :=
  if amount = 0 then { name := "gov_spending_zero", postings := [] }
  else
    { name := "government_spending",
      postings :=
        [⟨"Private", "Deposits", amount⟩, ⟨"Banks", "Deposits", amount⟩,
         ⟨"Banks", "Reserves", amount⟩, ⟨"CentralBank", "Reserves", amount⟩,
         ⟨"CentralBank", "TGA", -amount⟩, ⟨"Government", "TGA", -amount⟩],
      meta := [("amount", amount)] }

/-- flows.py tx_taxes. -/
def tx_taxes (amount : ℚ) : Transaction :=
  if amount = 0 then { name := "taxes_zero", postings := [] }
  else
    { name := "taxes",
      postings :=
        [⟨"Private", "Deposits", -amount⟩, ⟨"Banks", "Deposits", -amount⟩,
         ⟨"Banks", "Reserves", -amount⟩, ⟨"CentralBank", "Reserves", -amount⟩,
         ⟨"CentralBank", "TGA", amount⟩, ⟨"Government", "TGA", amount⟩],
      meta := [("amount", amount)] }

/-- flows.py tx_loan_creation. -/
def tx_loan_creation (amount : ℚ) : Transaction :=
  if amount = 0 then { name := "loan_creation_zero", postings := [] }
  else
    { name := "loan_creation",
      postings :=
        [⟨"Banks", "Loans", amount⟩, ⟨"Private", "Loans", amount⟩,
         ⟨"Banks", "Deposits", amount⟩, ⟨"Private", "Deposits", amount⟩],
      meta := [("amount", amount)] }

/-- flows.py tx_loan_repayment. -/
def tx_loan_repayment (amount : ℚ) : Transaction :=
  if amount = 0 then { name := "loan_repayment_zero", postings := [] }
  else
    { name := "loan_repayment",
      postings :=
        [⟨"Private", "Deposits", -amount⟩, ⟨"Banks", "Deposits", -amount⟩,
         ⟨"Banks", "Loans", -amount⟩, ⟨"Private", "Loans", -amount⟩],
      meta := [("amount", amount)] }

/-- flows.py tx_private_loan_creation. -/
def tx_private_loan_creation (amount : ℚ) : Transaction :=
  if amount = 0 then { name := "private_loan_creation_zero", postings := [] }
  else
    { name := "private_loan_creation",
      postings :=
        [⟨"Private", "PrivateLoansAsset", amount⟩,
         ⟨"Private", "PrivateLoansLiability", amount⟩],
      meta := [("amount", amount)] }

/-- flows.py tx_private_loan_repayment. -/
def tx_private_loan_repayment (amount : ℚ) : Transaction :=
  if amount = 0 then { name := "private_loan_repayment_zero", postings := [] }
  else
    { name := "private_loan_repayment",
      postings :=
        [⟨"Private", "PrivateLoansAsset", -amount⟩,
         ⟨"Private", "PrivateLoansLiability", -amount⟩],
      meta := [("amount", amount)] }

/-- flows.py tx_interest_on_loans. -/
def tx_interest_on_loans (amount : ℚ) : Transaction :=
  if amount = 0 then { name := "interest_loans_zero", postings := [] }
  else
    { name := "interest_on_loans",
      postings := [⟨"Private", "Deposits", -amount⟩, ⟨"Banks", "Deposits", -amount⟩],
      meta := [("amount", amount)] }

/-- flows.py tx_interest_on_deposits. -/
def tx_interest_on_deposits (amount : ℚ) : Transaction :=
  if amount = 0 then { name := "interest_deposits_zero", postings := [] }
  else
    { name := "interest_on_deposits",
      postings := [⟨"Private", "Deposits", amount⟩, ⟨"Banks", "Deposits", amount⟩],
      meta := [("amount", amount)] }

/-- flows.py tx_interest_on_reserves. -/
def tx_interest_on_reserves (amount : ℚ) : Transaction :=
  if amount = 0 then { name := "interest_reserves_zero", postings := [] }
  else
    { name := "interest_on_reserves",
      postings := [⟨"Banks", "Reserves", amount⟩, ⟨"CentralBank", "Reserves", amount⟩],
      meta := [("amount", amount)] }

/-- flows.py tx_interest_on_bonds. -/
def tx_interest_on_bonds (amount : ℚ) : Transaction :=
  if amount = 0 then { name := "interest_bonds_zero", postings := [] }
  else
    { name := "interest_on_bonds",
      postings :=
        [⟨"Private", "Deposits", amount⟩, ⟨"Banks", "Deposits", amount⟩,
         ⟨"Banks", "Reserves", amount⟩, ⟨"CentralBank", "Reserves", amount⟩,
         ⟨"CentralBank", "TGA", -amount⟩, ⟨"Government", "TGA", -amount⟩],
      meta := [("amount", amount)] }

/-- flows.py tx_bond_issue. -/
def tx_bond_issue (amount : ℚ) : Transaction :=
  if amount = 0 then { name := "bond_issue_zero", postings := [] }
  else
    { name := "bond_issue",
      postings :=
        [⟨"Private", "Deposits", -amount⟩, ⟨"Banks", "Deposits", -amount⟩,
         ⟨"Banks", "Reserves", -amount⟩, ⟨"CentralBank", "Reserves", -amount⟩,
         ⟨"CentralBank", "TGA", amount⟩, ⟨"Government", "TGA", amount⟩,
         ⟨"Government", "GovBonds", amount⟩, ⟨"Private", "GovBonds", amount⟩],
      meta := [("amount", amount)] }

/-- flows.py tx_bond_sale_to_cb. -/
def tx_bond_sale_to_cb (amount : ℚ) : Transaction :=
  if amount = 0 then { name := "bond_sale_to_cb_zero", postings := [] }
  else
    { name := "bond_sale_to_cb",
      postings :=
        [⟨"Government", "GovBonds", amount⟩, ⟨"CentralBank", "GovBonds", amount⟩,
         ⟨"CentralBank", "TGA", amount⟩, ⟨"Government", "TGA", amount⟩],
      meta := [("amount", amount)] }

/-- flows.py tx_bank_debt_issue. -/
def tx_bank_debt_issue (amount : ℚ) : Transaction :=
  if amount = 0 then { name := "bank_debt_issue_zero", postings := [] }
  else
    { name := "bank_debt_issue",
      postings :=
        [⟨"Private", "Deposits", -amount⟩, ⟨"Banks", "Deposits", -amount⟩,
         ⟨"Private", "BankDebt", amount⟩, ⟨"Banks", "BankDebt", amount⟩],
      meta := [("amount", amount)] }

/-- flows.py tx_bank_debt_repayment. -/
def tx_bank_debt_repayment (amount : ℚ) : Transaction :=
  if amount = 0 then { name := "bank_debt_repayment_zero", postings := [] }
  else
    { name := "bank_debt_repayment",
      postings :=
        [⟨"Private", "Deposits", amount⟩, ⟨"Banks", "Deposits", amount⟩,
         ⟨"Private", "BankDebt", -amount⟩, ⟨"Banks", "BankDebt", -amount⟩],
      meta := [("amount", amount)] }

/-- flows.py select_transactions: keep the transactions with a nonempty
    posting list (Python truthiness of `tx.postings`). -/
def select_transactions (txs : List Transaction) : List Transaction :=
  txs.filter fun tx => tx.postings ≠ []

/-- config.py ModelConfig, with the same defaults. -/
structure ModelConfig : Type where
  steps : Nat := 120
  dt_months : ℚ := 1
  gov_spending : ℚ := 100
  tax_rate : ℚ := 2/10
  loan_growth : ℚ := 1/100
  private_loan_growth : ℚ := 0
  deposit_rate : ℚ := (1/100) / 12
  loan_rate : ℚ := (4/100) / 12
  reserve_rate : ℚ := (2/100) / 12
  bond_rate : ℚ := (3/100) / 12
  tga_target : ℚ := 0
  gov_spending_fn : Option (Nat → ℚ) := none
  tax_fn : Option (Nat → List (String × ℚ) → ℚ) := none
  loan_growth_fn : Option (Nat → List (String × ℚ) → ℚ) := none
  private_loan_growth_fn : Option (Nat → List (String × ℚ) → ℚ) := none
  initial : List (String × List (String × ℚ)) := []

/-- config.py ModelConfig.resolve_initial: the configured mapping when
    nonempty, else the fixed default starting balances. -/
def ModelConfig.resolve_initial (cfg : ModelConfig) :
    List (String × List (String × ℚ)) :=
  if cfg.initial ≠ [] then cfg.initial
  else
    [("Private",
       [("Deposits", 90), ("Loans", 100), ("PrivateLoansAsset", 0),
        ("PrivateLoansLiability", 0), ("GovBonds", 0), ("BankDebt", 0),
        ("Currency", 0), ("NetWorth", 0)]),
     ("Banks",
       [("Loans", 100), ("Reserves", 0), ("Deposits", 90), ("BankDebt", 0),
        ("BankEquity", 0)]),
     ("Government", [("TGA", 0), ("GovBonds", 0), ("GovEquity", 0)]),
     ("CentralBank",
       [("Reserves", 0), ("Currency", 0), ("TGA", 0), ("GovBonds", 0),
        ("CBEq", 0)])]

/-- model.py _get_balance: read a "Sector:Account" key from a snapshot,
    defaulting to 0. -/
def get_balance (snapshot : List (String × ℚ)) (sector account : String) : ℚ :=
  lookupD snapshot (sector ++ ":" ++ account) 0

/-- model.py _compute_metrics.  The direct dict subscripts
    `ledger.sectors[...]` raise KeyError when a sector is missing. -/
def compute_metrics (snapshot : List (String × ℚ)) (l : Ledger) :
    Except LedgerError (List (String × ℚ)) :=
  match lookupA l.sectors "Private", lookupA l.sectors "Banks",
        lookupA l.sectors "Government", lookupA l.sectors "CentralBank" with
  | some priv, some banks, some gov, some cb =>
    let deposits := get_balance snapshot "Private" "Deposits"
    let currency := get_balance snapshot "Private" "Currency"
    let loans := get_balance snapshot "Private" "Loans"
    let bonds := get_balance snapshot "Private" "GovBonds"
    let reserves := get_balance snapshot "Banks" "Reserves"
    let private_nfa := priv.net_position
    let banks_nfa := banks.net_position
    let public_nfp := gov.net_position + cb.net_position
    let non_gov_nfa := private_nfa + banks_nfa
    .ok [("Money_M1", deposits + currency), ("Private_Debt", loans),
         ("Private_Bonds", bonds), ("Bank_Reserves", reserves),
         ("Private_NFA", private_nfa), ("Banks_NFA", banks_nfa),
         ("NonGov_NFA", non_gov_nfa), ("Public_NFP", public_nfp),
         ("Sector_Balance_Check", non_gov_nfa + public_nfp)]
  | _, _, _, _ => .error (.unknownAccount "sector")

/-- model.py MoneySystemModel state: configuration, ledger, histories. -/
structure Model : Type where
  config : ModelConfig
  ledger : Ledger
  stock_history : List (List (String × ℚ)) := []
  flow_history : List (List (String × ℚ)) := []
  metric_history : List (List (String × ℚ)) := []

/-- model.py MoneySystemModel.__init__. -/
def Model.init (cfg : ModelConfig) : Except LedgerError Model :=
  match build_default_ledger cfg.resolve_initial with
  | .error e => .error e
  | .ok l => .ok { config := cfg, ledger := l }

/-- model.py MoneySystemModel._resolve_gov_spending. -/
def resolve_gov_spending (cfg : ModelConfig) (t : Nat) : ℚ :=
  match cfg.gov_spending_fn with
  | some f => f t
  | none => cfg.gov_spending

/-- model.py MoneySystemModel._resolve_tax: the override when configured,
    else max(0, tax_rate * (gov_spending + interest_on_deposits +
    interest_on_bonds - interest_on_loans)) over this period's flows. -/
def resolve_tax (cfg : ModelConfig) (t : Nat) (balances flows : List (String × ℚ)) : ℚ :=
  match cfg.tax_fn with
  | some f => f t balances
  | none =>
    let tax_base := lookupD flows "gov_spending" 0 + lookupD flows "interest_on_deposits" 0
      + lookupD flows "interest_on_bonds" 0 - lookupD flows "interest_on_loans" 0
    max 0 (cfg.tax_rate * tax_base)

/-- model.py MoneySystemModel._resolve_loan_change. -/
def resolve_loan_change (cfg : ModelConfig) (t : Nat) (balances : List (String × ℚ)) : ℚ :=
  match cfg.loan_growth_fn with
  | some f => f t balances
  | none => cfg.loan_growth * get_balance balances "Private" "Loans"

/-- model.py MoneySystemModel._resolve_private_loan_change. -/
def resolve_private_loan_change (cfg : ModelConfig) (t : Nat)
    (balances : List (String × ℚ)) : ℚ :=
  match cfg.private_loan_growth_fn with
  | some f => f t balances
  | none => cfg.private_loan_growth * get_balance balances "Private" "PrivateLoansAsset"

/-- The transaction list built by step (model.py lines 116-138): loan
    adjustment, private-loan adjustment, the four interest transactions,
    government spending, taxes. -/
def buildStepTxs (loan_change deposits private_loan_change private_loans
    interest_on_loans interest_on_deposits interest_on_reserves interest_on_bonds
    gov_spending taxes : ℚ) : List Transaction :=
  (if loan_change ≥ 0 then [tx_loan_creation loan_change]
   else [tx_loan_repayment (min (-loan_change) deposits)])
  ++ (if private_loan_change ≥ 0 then [tx_private_loan_creation private_loan_change]
      else [tx_private_loan_repayment (min (-private_loan_change) private_loans)])
  ++ [tx_interest_on_loans interest_on_loans,
      tx_interest_on_deposits interest_on_deposits,
      tx_interest_on_reserves interest_on_reserves,
      tx_interest_on_bonds interest_on_bonds,
      tx_government_spending gov_spending,
      tx_taxes taxes]

/-- The flow mapping built by step before tax resolution (model.py lines
    105-113). -/
def stepFlows1 (cfg : ModelConfig) (t : Nat) (balances : List (String × ℚ)) :
    List (String × ℚ) :=
  [("gov_spending", resolve_gov_spending cfg t),
   ("loan_change", resolve_loan_change cfg t balances),
   ("interest_on_loans", cfg.loan_rate * get_balance balances "Private" "Loans"),
   ("interest_on_deposits", cfg.deposit_rate * get_balance balances "Private" "Deposits"),
   ("interest_on_reserves", cfg.reserve_rate * get_balance balances "Banks" "Reserves"),
   ("interest_on_bonds", cfg.bond_rate * get_balance balances "Private" "GovBonds"),
   ("private_loan_change", resolve_private_loan_change cfg t balances)]

/-- The full per-period flow mapping of step after tax resolution
    (model.py line 114): stepFlows1 plus the taxes entry, the tax resolved
    against the already-built flow mapping. -/
def stepFlows2 (cfg : ModelConfig) (t : Nat) (balances : List (String × ℚ)) :
    List (String × ℚ) :=
  stepFlows1 cfg t balances
    ++ [("taxes", resolve_tax cfg t balances (stepFlows1 cfg t balances))]

/-- The transaction list step builds from the pre-step snapshot (model.py
    lines 116-138), the amounts read back from the flow mapping as the
    Python code subscripts the flows dict. -/
def stepTxs (cfg : ModelConfig) (t : Nat) (balances : List (String × ℚ)) :
    List Transaction :=
  buildStepTxs (resolve_loan_change cfg t balances)
    (get_balance balances "Private" "Deposits")
    (resolve_private_loan_change cfg t balances)
    (get_balance balances "Private" "PrivateLoansAsset")
    (lookupD (stepFlows2 cfg t balances) "interest_on_loans" 0)
    (lookupD (stepFlows2 cfg t balances) "interest_on_deposits" 0)
    (lookupD (stepFlows2 cfg t balances) "interest_on_reserves" 0)
    (lookupD (stepFlows2 cfg t balances) "interest_on_bonds" 0)
    (lookupD (stepFlows2 cfg t balances) "gov_spending" 0)
    (lookupD (stepFlows2 cfg t balances) "taxes" 0)

/-- model.py MoneySystemModel.step, stages 1-6: snapshot, flow
    resolution, transaction build, selection and application, and
    residual TGA financing.  Returns the ledger after financing and the
    period's flow mapping. -/
def stepCore (cfg : ModelConfig) (ledger : Ledger) (t : Nat) :
    Except LedgerError (Ledger × List (String × ℚ)) :=
  let balances := ledger.snapshot
  let flows2 := stepFlows2 cfg t balances
  let txs := stepTxs cfg t balances
  match (select_transactions txs).foldlM (fun l tx => Ledger.apply l tx) ledger with
  | .error e => .error e
  | .ok ledger1 =>
    let tga_balance := get_balance ledger1.snapshot "Government" "TGA"
    let tga_gap := cfg.tga_target - tga_balance
    if |tga_gap| > 1/1000000 then
      match ledger1.apply (tx_bond_issue tga_gap) with
      | .error e => .error e
      | .ok ledger2 => .ok (ledger2, flows2 ++ [("bond_issuance", tga_gap)])
    else .ok (ledger1, flows2 ++ [("bond_issuance", 0)])

/-- The value returned by the Python method Ledger.recompute_equity: its
    body ends without a return statement, so every call returns None. -/
def recompute_equity_ret : Option (List (String × ℚ)) := none

/-- model.py MoneySystemModel.step (lines 96-162).  After the financing
    stage the engine recomputes equity, snapshots stocks and metrics, then
    iterates over `equity_adjustments.items()` where equity_adjustments is
    the None returned by Ledger.recompute_equity, raising AttributeError
    before any history is appended. -/
def Model.step (m : Model) (t : Nat) :
    Except LedgerError (Model × List (String × ℚ) × List (String × ℚ) × List (String × ℚ)) :=
  match stepCore m.config m.ledger t with
  | .error e => .error e
  | .ok (ledger1, flows) =>
    match ledger1.recompute_equity with
    | .error e => .error e
    | .ok ledger2 =>
      let equity_adjustments := recompute_equity_ret
      let stocks := ledger2.snapshot
      match compute_metrics stocks ledger2 with
      | .error e => .error e
      | .ok metrics =>
        match equity_adjustments with
        | none => .error .attributeError
        | some adjs =>
          let flows' := flows ++ adjs.map (fun kv => ("equity_adjustment_" ++ kv.1, kv.2))
          .ok ({ m with
                 ledger := ledger2
                 stock_history := m.stock_history ++ [stocks]
                 flow_history := m.flow_history ++ [flows']
                 metric_history := m.metric_history ++ [metrics] },
               stocks, flows', metrics)

/-! Infrastructure lemmas about the Except monad, association lists and the
    ledger primitives.  These support the claim theorems below. -/

theorem except_pure_eq {ε α : Type} (a : α) : (pure a : Except ε α) = Except.ok a := rfl

theorem except_bind_ok {ε α β : Type} (a : α) (f : α → Except ε β) :
    (Except.ok a >>= f) = f a := rfl

theorem except_bind_error {ε α β : Type} (e : ε) (f : α → Except ε β) :
    ((Except.error e : Except ε α) >>= f) = Except.error e := rfl

theorem lookupA_map {α β : Type} (f : α → β) (xs : List (String × α)) (k : String) :
    lookupA (xs.map fun kv => (kv.1, f kv.2)) k = (lookupA xs k).map f := by
  induction xs with
  | nil => rfl
  | cons kv rest ih =>
    by_cases h : kv.1 = k <;> simp [lookupA, h, ih]

theorem lookupA_updateBal_self (xs : List (String × Account)) (k : String) (d : ℚ) :
    lookupA (updateBal xs k d) k =
      (lookupA xs k).map fun a => { a with balance := a.balance + d } := by
  induction xs with
  | nil => rfl
  | cons kv rest ih =>
    by_cases h : kv.1 = k <;> simp [lookupA, updateBal, h, ih]

theorem lookupA_updateBal_ne (xs : List (String × Account)) (k k' : String) (d : ℚ)
    (h : k' ≠ k) : lookupA (updateBal xs k d) k' = lookupA xs k' := by
  induction xs with
  | nil => rfl
  | cons kv rest ih =>
    by_cases h1 : kv.1 = k
    · simp [updateBal, h1, lookupA, Ne.symm h]
    · simp [updateBal, h1, lookupA, ih]

theorem sumCat_cons (c : Category) (kv : String × Account) (rest : List (String × Account)) :
    sumCat c (kv :: rest) =
      (if kv.2.category = c then kv.2.balance else 0) + sumCat c rest := by
  simp [sumCat]

theorem sumCat_updateBal (c : Category) (xs : List (String × Account)) (k : String)
    (d : ℚ) (a : Account) (h : lookupA xs k = some a) :
    sumCat c (updateBal xs k d) =
      sumCat c xs + (if a.category = c then d else 0) := by
  induction xs with
  | nil => simp [lookupA] at h
  | cons kv rest ih =>
    by_cases h1 : kv.1 = k
    · simp only [lookupA, if_pos h1] at h
      obtain rfl := Option.some.inj h
      simp only [updateBal, if_pos h1, sumCat_cons]
      by_cases h2 : kv.2.category = c <;> simp [h2] <;> ring
    · simp only [lookupA, if_neg h1] at h
      simp only [updateBal, if_neg h1, sumCat_cons, ih h]
      ring

/-- The sector and account names and account categories of an account
    list: everything apply-time mutation leaves unchanged. -/
def acctSkeleton (xs : List (String × Account)) : List (String × String × Category) :=
  xs.map fun kv => (kv.1, kv.2.name, kv.2.category)

theorem acctSkeleton_updateBal (xs : List (String × Account)) (k : String) (d : ℚ) :
    acctSkeleton (updateBal xs k d) = acctSkeleton xs := by
  induction xs with
  | nil => rfl
  | cons kv rest ih =>
    by_cases h : kv.1 = k
    · simp [updateBal, h, acctSkeleton]
    · simp only [updateBal, if_neg h, acctSkeleton, List.map_cons]
      simpa [acctSkeleton] using ih

/-- The structural part of a ledger: sector keys and names and each
    sector's account skeleton. -/
def Ledger.skeleton (l : Ledger) : List (String × String × List (String × String × Category)) :=
  l.sectors.map fun kv => (kv.1, kv.2.name, acctSkeleton kv.2.accounts)

/-- Category of the account stored at a sector key and account key. -/
def catOf (l : Ledger) (s a : String) : Option Category :=
  (lookupA l.sectors s).bind fun sec => (lookupA sec.accounts a).map fun acct => acct.category

/-- Balance of the account stored at a sector key and account key. -/
def balOf (l : Ledger) (s a : String) : Option ℚ :=
  (lookupA l.sectors s).bind fun sec => (lookupA sec.accounts a).map fun acct => acct.balance

/-- Category read off a ledger skeleton. -/
def skCat (sk : List (String × String × List (String × String × Category)))
    (s a : String) : Option Category :=
  (lookupA sk s).bind fun p => (lookupA p.2 a).map fun q => q.2

theorem lookupA_secmap (xs : List (String × SectorLedger)) (k : String) :
    lookupA (xs.map fun kv => (kv.1, kv.2.name, acctSkeleton kv.2.accounts)) k =
      (lookupA xs k).map fun sec => (sec.name, acctSkeleton sec.accounts) := by
  induction xs with
  | nil => rfl
  | cons kv rest ih => by_cases h : kv.1 = k <;> simp [lookupA, h, ih]

theorem lookupA_accmap (xs : List (String × Account)) (k : String) :
    lookupA (xs.map fun kv => (kv.1, kv.2.name, kv.2.category)) k =
      (lookupA xs k).map fun a => (a.name, a.category) := by
  induction xs with
  | nil => rfl
  | cons kv rest ih => by_cases h : kv.1 = k <;> simp [lookupA, h, ih]

theorem catOf_eq_skCat (l : Ledger) (s a : String) :
    catOf l s a = skCat l.skeleton s a := by
  rw [catOf, skCat, Ledger.skeleton, lookupA_secmap]
  cases hsec : lookupA l.sectors s with
  | none => rfl
  | some sec =>
    simp only [Option.map_some', Option.some_bind]
    rw [acctSkeleton, lookupA_accmap]
    cases lookupA sec.accounts a <;> rfl

theorem catOf_congr {l l' : Ledger} (h : l.skeleton = l'.skeleton) (s a : String) :
    catOf l s a = catOf l' s a := by
  rw [catOf_eq_skCat, catOf_eq_skCat, h]

/-- Sign with which a posting to an account of a category moves a
    sector's net position: equity accounts do not enter net_position. -/
def neSign : Category → ℚ
  | .asset => 1
  | .liability => -1
  | .equity => 0

/-- Sum of all sectors' net positions. -/
def netTotal (l : Ledger) : ℚ :=
  (l.sectors.map fun kv => kv.2.net_position).sum

theorem lookupA_updateSec_self (xs : List (String × SectorLedger)) (k : String)
    (s' : SectorLedger) (sec : SectorLedger) (h : lookupA xs k = some sec) :
    lookupA (updateSec xs k s') k = some s' := by
  induction xs with
  | nil => simp [lookupA] at h
  | cons kv rest ih =>
    by_cases h1 : kv.1 = k
    · simp [updateSec, h1, lookupA]
    · simp only [lookupA, if_neg h1] at h
      simp [updateSec, h1, lookupA, ih h]

theorem lookupA_updateSec_ne (xs : List (String × SectorLedger)) (k k' : String)
    (s' : SectorLedger) (h : k' ≠ k) :
    lookupA (updateSec xs k s') k' = lookupA xs k' := by
  induction xs with
  | nil => rfl
  | cons kv rest ih =>
    by_cases h1 : kv.1 = k
    · simp [updateSec, h1, lookupA, Ne.symm h]
    · simp [updateSec, h1, lookupA, ih]

theorem secmap_updateSec {β : Type} (g : SectorLedger → β)
    (xs : List (String × SectorLedger)) (k : String) (s' sec : SectorLedger)
    (h : lookupA xs k = some sec) (hg : g s' = g sec) :
    (updateSec xs k s').map (fun kv => (kv.1, g kv.2)) =
      xs.map (fun kv => (kv.1, g kv.2)) := by
  induction xs with
  | nil => rfl
  | cons kv rest ih =>
    by_cases h1 : kv.1 = k
    · simp only [lookupA, if_pos h1] at h
      obtain rfl := Option.some.inj h
      simp [updateSec, h1, hg]
    · simp only [lookupA, if_neg h1] at h
      simp [updateSec, h1, ih h]

theorem sum_map_updateSec (g : SectorLedger → ℚ) (xs : List (String × SectorLedger))
    (k : String) (s' sec : SectorLedger) (h : lookupA xs k = some sec) :
    ((updateSec xs k s').map (fun kv => g kv.2)).sum =
      (xs.map (fun kv => g kv.2)).sum + (g s' - g sec) := by
  induction xs with
  | nil => simp [lookupA] at h
  | cons kv rest ih =>
    by_cases h1 : kv.1 = k
    · simp only [lookupA, if_pos h1] at h
      obtain rfl := Option.some.inj h
      simp [updateSec, h1]
      ring
    · simp only [lookupA, if_neg h1] at h
      simp [updateSec, h1, ih h]
      ring

theorem applyAcc_ok {s s' : SectorLedger} {k : String} {d : ℚ}
    (h : s.applyAcc k d = .ok s') :
    ∃ a, lookupA s.accounts k = some a ∧
      s' = { s with accounts := updateBal s.accounts k d } := by
  rw [SectorLedger.applyAcc] at h
  cases ha : lookupA s.accounts k with
  | none => rw [ha] at h; exact absurd h (by simp)
  | some a =>
    rw [ha] at h
    exact ⟨a, rfl, (Except.ok.inj h).symm⟩

/-- Effect of one successful posting application: the target account
    exists, the ledger skeleton and log are unchanged, the net-position
    total moves by the signed amount, and exactly the target account's
    balance moves by the amount. -/
theorem applyPosting_ok {l l' : Ledger} {p : Posting}
    (h : l.applyPosting p = .ok l') :
    ∃ c, catOf l p.sector p.account = some c
      ∧ l'.skeleton = l.skeleton
      ∧ l'.transactions = l.transactions
      ∧ netTotal l' = netTotal l + p.amount * neSign c
      ∧ (∀ s a, balOf l' s a =
          if p.sector = s ∧ p.account = a then (balOf l s a).map (· + p.amount)
          else balOf l s a) := by
  rw [Ledger.applyPosting] at h
  cases hsec : lookupA l.sectors p.sector with
  | none => rw [hsec] at h; exact absurd h (by simp)
  | some sec =>
    simp only [hsec] at h
    cases happ : sec.applyAcc p.account p.amount with
    | error e => exact absurd h (by simp only [happ]; simp)
    | ok s' =>
      simp only [happ] at h
      obtain ⟨acct, hacct, rfl⟩ := applyAcc_ok happ
      obtain rfl := (Except.ok.inj h).symm
      refine ⟨acct.category, ?_, ?_, rfl, ?_, ?_⟩
      · rw [catOf, hsec]
        simp [hacct]
      · show (updateSec l.sectors p.sector _).map _ = _
        exact secmap_updateSec (fun sec => (sec.name, acctSkeleton sec.accounts))
          l.sectors p.sector _ sec hsec (by simp [acctSkeleton_updateBal])
      · show ((updateSec l.sectors p.sector _).map (fun kv => kv.2.net_position)).sum
          = _ + _
        rw [sum_map_updateSec (fun s => s.net_position) l.sectors p.sector _ sec hsec]
        have ha : SectorLedger.net_position
            { sec with accounts := updateBal sec.accounts p.account p.amount }
            = sec.net_position + p.amount * neSign acct.category := by
          rw [SectorLedger.net_position, SectorLedger.net_position,
            SectorLedger.assets_total, SectorLedger.assets_total,
            SectorLedger.liabilities_total, SectorLedger.liabilities_total]
          show sumCat .asset (updateBal sec.accounts p.account p.amount)
            - sumCat .liability (updateBal sec.accounts p.account p.amount) = _
          rw [sumCat_updateBal .asset sec.accounts p.account p.amount acct hacct,
            sumCat_updateBal .liability sec.accounts p.account p.amount acct hacct]
          cases acct.category <;> simp [neSign] <;> ring
        rw [ha]
        show netTotal l + _ = netTotal l + _
        ring
      · intro s a
        by_cases hs : p.sector = s
        · subst hs
          rw [balOf, balOf,
            lookupA_updateSec_self l.sectors p.sector _ sec hsec, hsec]
          by_cases haa : p.account = a
          · subst haa
            simp only [Option.some_bind]
            rw [lookupA_updateBal_self, hacct]
            simp
          · simp only [Option.some_bind, if_neg (fun hc => haa (And.right hc))]
            rw [lookupA_updateBal_ne sec.accounts p.account a p.amount
              (fun hh => haa hh.symm)]
        · rw [balOf, balOf,
            lookupA_updateSec_ne l.sectors p.sector s _ (fun hh => hs hh.symm)]
          simp [hs]

/-- Sum of the amounts of the postings targeting one account. -/
def postSum (ps : List Posting) (s a : String) : ℚ :=
  (ps.map fun p => if p.sector = s ∧ p.account = a then p.amount else 0).sum

/-- Net-position-weighted sum of a posting list (equity postings weigh 0). -/
def neSum (l : Ledger) (ps : List Posting) : ℚ :=
  (ps.map fun p => p.amount * neSign ((catOf l p.sector p.account).getD .equity)).sum

/-- Category-sign-weighted sum of a posting list. -/
def signedSum (l : Ledger) (ps : List Posting) : ℚ :=
  (ps.map fun p => p.amount * CATEGORY_SIGN ((catOf l p.sector p.account).getD .asset)).sum

theorem neSum_congr {l l' : Ledger} (h : l.skeleton = l'.skeleton) (ps : List Posting) :
    neSum l ps = neSum l' ps := by
  rw [neSum, neSum]
  congr 1
  exact List.map_congr_left fun p _ => by rw [catOf_congr h]

theorem postSum_cons (p : Posting) (ps : List Posting) (s a : String) :
    postSum (p :: ps) s a =
      (if p.sector = s ∧ p.account = a then p.amount else 0) + postSum ps s a := by
  simp [postSum]

theorem neSum_cons (l : Ledger) (p : Posting) (ps : List Posting) :
    neSum l (p :: ps) =
      p.amount * neSign ((catOf l p.sector p.account).getD .equity) + neSum l ps := by
  simp [neSum]

theorem signedSum_cons (l : Ledger) (p : Posting) (ps : List Posting) :
    signedSum l (p :: ps) =
      p.amount * CATEGORY_SIGN ((catOf l p.sector p.account).getD .asset)
        + signedSum l ps := by
  simp [signedSum]

/-- Effect of a successful posting-list application: skeleton and log
    unchanged, the net-position total moves by the weighted posting sum,
    and every existing balance moves by its matching posting amounts. -/
theorem applyPostings_ok {l l' : Ledger} {ps : List Posting}
    (h : l.applyPostings ps = .ok l') :
    l'.skeleton = l.skeleton
      ∧ l'.transactions = l.transactions
      ∧ netTotal l' = netTotal l + neSum l ps
      ∧ ∀ s a b, balOf l s a = some b → balOf l' s a = some (b + postSum ps s a) := by
  induction ps generalizing l with
  | nil =>
    obtain rfl : l = l' := Except.ok.inj h
    exact ⟨rfl, rfl, by simp [neSum], fun s a b hb => by simpa [postSum] using hb⟩
  | cons p ps ih =>
    rw [Ledger.applyPostings, List.foldlM_cons] at h
    cases hp : l.applyPosting p with
    | error e => rw [hp] at h; exact absurd h (by simp [except_bind_error])
    | ok l1 =>
      rw [hp, except_bind_ok] at h
      obtain ⟨c, hc, hskel, htx, hnet, hbal⟩ := applyPosting_ok hp
      obtain ⟨ihskel, ihtx, ihnet, ihbal⟩ := ih h
      refine ⟨ihskel.trans hskel, ihtx.trans htx, ?_, ?_⟩
      · rw [ihnet, hnet, neSum_congr hskel ps, neSum_cons, hc]
        simp only [Option.getD_some]
        ring
      · intro s a b hb
        have h1 := hbal s a
        by_cases hm : p.sector = s ∧ p.account = a
        · rw [if_pos hm, hb] at h1
          have := ihbal s a (b + p.amount) (by simpa using h1)
          rw [this, postSum_cons, if_pos hm]
          congr 1
          ring
        · rw [if_neg hm, hb] at h1
          have := ihbal s a b h1
          rw [this, postSum_cons, if_neg hm]
          congr 1
          ring

/-- A successful signed total equals the category-sign-weighted posting
    sum, and every referenced account exists. -/
theorem total_ok_aux (l : Ledger) (ps : List Posting) (acc t : ℚ)
    (h : ps.foldlM (totalStep l) acc = Except.ok t) :
    t = acc + signedSum l ps ∧ ∀ p ∈ ps, (catOf l p.sector p.account).isSome := by
  induction ps generalizing acc with
  | nil =>
    obtain rfl := Except.ok.inj h
    simp [signedSum]
  | cons p ps ih =>
    rw [List.foldlM_cons] at h
    cases hsec : lookupA l.sectors p.sector with
    | none =>
      simp only [totalStep, hsec, except_bind_error] at h
      exact absurd h (by simp)
    | some sec =>
      cases hacc : lookupA sec.accounts p.account with
      | none =>
        simp only [totalStep, hsec, hacc, except_bind_error] at h
        exact absurd h (by simp)
      | some a =>
        simp only [totalStep, hsec, hacc, except_bind_ok] at h
        obtain ⟨ht, hall⟩ := ih _ h
        have hcat : catOf l p.sector p.account = some a.category := by
          rw [catOf, hsec]
          simp [hacc]
        constructor
        · rw [ht, signedSum_cons, hcat]
          simp only [Option.getD_some]
          ring
        · intro q hq
          rcases List.mem_cons.mp hq with hq | hq
          · subst hq; simp [hcat]
          · exact hall q hq

theorem total_ok {l : Ledger} {tx : Transaction} {t : ℚ}
    (h : tx.total l = .ok t) :
    t = signedSum l tx.postings
      ∧ ∀ p ∈ tx.postings, (catOf l p.sector p.account).isSome := by
  have := total_ok_aux l tx.postings 0 t h
  simpa using this

/-- The only error Transaction.total can produce is a missing-key error. -/
theorem total_error_shape_aux (l : Ledger) (ps : List Posting) (acc : ℚ)
    (e : LedgerError)
    (h : ps.foldlM (totalStep l) acc = Except.error e) :
    ∃ nm, e = .unknownAccount nm := by
  induction ps generalizing acc with
  | nil => exact absurd h (by simp [except_pure_eq])
  | cons p ps ih =>
    rw [List.foldlM_cons] at h
    cases hsec : lookupA l.sectors p.sector with
    | none =>
      simp only [totalStep, hsec, except_bind_error] at h
      exact ⟨p.sector, (Except.error.inj h).symm⟩
    | some sec =>
      cases hacc : lookupA sec.accounts p.account with
      | none =>
        simp only [totalStep, hsec, hacc, except_bind_error] at h
        exact ⟨p.account, (Except.error.inj h).symm⟩
      | some a =>
        simp only [totalStep, hsec, hacc, except_bind_ok] at h
        exact ih _ h

theorem total_error_shape {l : Ledger} {tx : Transaction} {e : LedgerError}
    (h : tx.total l = .error e) : ∃ nm, e = .unknownAccount nm :=
  total_error_shape_aux l tx.postings 0 e h

/-- When every referenced account exists, the signed total succeeds. -/
theorem total_of_resolvable_aux (l : Ledger) (ps : List Posting) (acc : ℚ)
    (h : ∀ p ∈ ps, (catOf l p.sector p.account).isSome) :
    ∃ t, ps.foldlM (totalStep l) acc = Except.ok t := by
  induction ps generalizing acc with
  | nil => exact ⟨acc, rfl⟩
  | cons p ps ih =>
    have hp := h p (List.mem_cons_self p ps)
    rw [catOf] at hp
    cases hsec : lookupA l.sectors p.sector with
    | none => rw [hsec] at hp; simp at hp
    | some sec =>
      simp only [hsec, Option.some_bind] at hp
      cases hacc : lookupA sec.accounts p.account with
      | none => simp only [hacc] at hp; simp at hp
      | some a =>
        obtain ⟨t, ht⟩ := ih (acc + p.amount * CATEGORY_SIGN a.category)
          (fun q hq => h q (List.mem_cons_of_mem p hq))
        refine ⟨t, ?_⟩
        rw [List.foldlM_cons]
        simp only [totalStep, hsec, hacc, except_bind_ok]
        exact ht

/-- When every referenced account exists, the whole posting list applies. -/
theorem applyPostings_of_resolvable {l : Ledger} {ps : List Posting}
    (h : ∀ p ∈ ps, (catOf l p.sector p.account).isSome) :
    ∃ l', l.applyPostings ps = .ok l' := by
  induction ps generalizing l with
  | nil => exact ⟨l, rfl⟩
  | cons p ps ih =>
    have hp := h p (List.mem_cons_self p ps)
    rw [catOf] at hp
    cases hsec : lookupA l.sectors p.sector with
    | none => rw [hsec] at hp; simp at hp
    | some sec =>
      simp only [hsec, Option.some_bind] at hp
      cases hacc : lookupA sec.accounts p.account with
      | none => simp only [hacc] at hp; simp at hp
      | some a =>
        cases hstep : l.applyPosting p with
        | error e =>
          rw [Ledger.applyPosting] at hstep
          simp only [hsec, SectorLedger.applyAcc, hacc] at hstep
          exact absurd hstep (by simp)
        | ok l1 =>
          obtain ⟨c, hc, hskel, _, _, _⟩ := applyPosting_ok hstep
          obtain ⟨l', hl'⟩ := @ih l1 (fun q hq => by
            rw [catOf_congr hskel q.sector q.account]
            exact h q (List.mem_cons_of_mem p hq))
          refine ⟨l', ?_⟩
          rw [Ledger.applyPostings, List.foldlM_cons, hstep, except_bind_ok]
          exact hl'

theorem apply_of_total_error {l : Ledger} {tx : Transaction} (tol : ℚ)
    {e : LedgerError} (h : tx.total l = .error e) :
    l.apply tx tol = .error e := by
  rw [Ledger.apply, h]

theorem apply_of_unbalanced {l : Ledger} {tx : Transaction} {tol t : ℚ}
    (h : tx.total l = .ok t) (h2 : |t| > tol) :
    l.apply tx tol = .error (.unbalanced tx.name t) := by
  rw [Ledger.apply, h]
  simp only [if_pos h2]

/-- A validated transaction applies in full: the log grows by exactly this
    transaction, the skeleton is unchanged, the net-position total moves
    by the weighted posting sum, and every balance moves by its matching
    posting amounts. -/
theorem apply_of_balanced {l : Ledger} {tx : Transaction} {tol t : ℚ}
    (h : tx.total l = .ok t) (h2 : ¬(|t| > tol)) :
    ∃ l', l.apply tx tol = .ok l'
      ∧ l'.transactions = l.transactions ++ [tx]
      ∧ l'.skeleton = l.skeleton
      ∧ netTotal l' = netTotal l + neSum l tx.postings
      ∧ ∀ s a b, balOf l s a = some b →
          balOf l' s a = some (b + postSum tx.postings s a) := by
  obtain ⟨-, hres⟩ := total_ok h
  obtain ⟨l1, hl1⟩ := applyPostings_of_resolvable hres
  obtain ⟨hskel, htx, hnet, hbal⟩ := applyPostings_ok hl1
  refine ⟨{ l1 with transactions := l1.transactions ++ [tx] }, ?_, ?_, ?_, ?_, ?_⟩
  · rw [Ledger.apply, h]
    simp only [if_neg h2, hl1]
  · rw [htx]
  · show l1.sectors.map _ = _
    exact hskel
  · show (l1.sectors.map fun kv => kv.2.net_position).sum = _
    exact hnet
  · intro s a b hb
    have := hbal s a b hb
    rw [← this]
    rfl

/-- An unknown sector or account in any posting makes apply fail with the
    missing-key error, before any state is produced. -/
theorem apply_of_unresolvable {l : Ledger} {tx : Transaction} (tol : ℚ)
    (h : ∃ p ∈ tx.postings, catOf l p.sector p.account = none) :
    ∃ nm, l.apply tx tol = .error (.unknownAccount nm) := by
  cases htot : tx.total l with
  | ok t =>
    obtain ⟨p, hp, hnone⟩ := h
    have := (total_ok htot).2 p hp
    rw [hnone] at this
    simp at this
  | error e =>
    obtain ⟨nm, rfl⟩ := total_error_shape htot
    exact ⟨nm, apply_of_total_error tol htot⟩

theorem sumCat_map_setEquityBal_ne (v : ℚ) (xs : List (String × Account))
    (c : Category) (hc : c ≠ .equity) :
    sumCat c (xs.map (setEquityBal v)) = sumCat c xs := by
  induction xs with
  | nil => rfl
  | cons kv rest ih =>
    by_cases h : kv.2.category = Category.equity
    · simp only [List.map_cons, sumCat_cons, ih, setEquityBal, if_pos h]
      rw [if_neg, if_neg]
      · rw [h]; exact fun hh => hc hh.symm
      · show ¬({ kv.2 with balance := v } : Account).category = c
        simpa [h] using fun hh => hc hh.symm
    · simp only [List.map_cons, sumCat_cons, ih, setEquityBal, if_neg h]

theorem sumCat_map_setEquityBal_eq (v : ℚ) (xs : List (String × Account)) :
    sumCat .equity (xs.map (setEquityBal v)) =
      ((xs.filter fun kv => kv.2.category = Category.equity).length : ℚ) * v := by
  induction xs with
  | nil => simp [sumCat]
  | cons kv rest ih =>
    by_cases h : kv.2.category = Category.equity
    · simp only [List.map_cons, sumCat_cons, ih, setEquityBal, if_pos h]
      simp only [List.filter_cons, h]
      simp
      ring
    · simp only [List.map_cons, sumCat_cons, ih, setEquityBal, if_neg h]
      simp only [List.filter_cons, h]
      simp [h]

theorem acctSkeleton_map_setEquityBal (v : ℚ) (xs : List (String × Account)) :
    acctSkeleton (xs.map (setEquityBal v)) = acctSkeleton xs := by
  induction xs with
  | nil => rfl
  | cons kv rest ih =>
    by_cases h : kv.2.category = Category.equity <;>
      simp only [List.map_cons, acctSkeleton, setEquityBal, if_pos, if_neg, h,
        if_true, if_false] <;>
      simpa [acctSkeleton] using ih

theorem mem_map_setEquityBal {v : ℚ} {xs : List (String × Account)}
    {kv' : String × Account} (h : kv' ∈ xs.map (setEquityBal v))
    (hc : kv'.2.category = .equity) : kv'.2.balance = v := by
  obtain ⟨kv, hmem, rfl⟩ := List.mem_map.mp h
  by_cases h2 : kv.2.category = Category.equity
  · simp [setEquityBal, h2]
  · rw [setEquityBal, if_neg h2] at hc
    exact absurd hc h2

/-- The number of equity accounts of a sector. -/
def eqCount (s : SectorLedger) : Nat :=
  (s.accounts.filter fun kv => kv.2.category = Category.equity).length

theorem recompute_equity_of_no_equity {s : SectorLedger} (h : eqCount s = 0) :
    s.recompute_equity = s := by
  rw [eqCount] at h
  simp only [SectorLedger.recompute_equity, h, if_pos]

theorem recompute_equity_accounts {s : SectorLedger} (h : eqCount s ≠ 0) :
    (s.recompute_equity).accounts =
      s.accounts.map (setEquityBal
        ((s.assets_total - s.liabilities_total) / (eqCount s : ℚ))) := by
  rw [eqCount] at h
  simp only [SectorLedger.recompute_equity, eqCount, if_neg h]

/-- After recomputation with at least one equity account, every equity
    account holds the even residual split. -/
theorem recompute_equity_split {s : SectorLedger} (h : eqCount s ≠ 0) :
    ∀ kv ∈ (s.recompute_equity).accounts, kv.2.category = .equity →
      kv.2.balance = (s.assets_total - s.liabilities_total) / (eqCount s : ℚ) := by
  intro kv hmem hc
  rw [recompute_equity_accounts h] at hmem
  exact mem_map_setEquityBal hmem hc

theorem recompute_equity_assets (s : SectorLedger) :
    (s.recompute_equity).assets_total = s.assets_total := by
  by_cases h : eqCount s = 0
  · rw [recompute_equity_of_no_equity h]
  · show sumCat .asset (s.recompute_equity).accounts = _
    rw [recompute_equity_accounts h,
      sumCat_map_setEquityBal_ne _ _ .asset (by simp)]
    rfl

theorem recompute_equity_liabilities (s : SectorLedger) :
    (s.recompute_equity).liabilities_total = s.liabilities_total := by
  by_cases h : eqCount s = 0
  · rw [recompute_equity_of_no_equity h]
  · show sumCat .liability (s.recompute_equity).accounts = _
    rw [recompute_equity_accounts h,
      sumCat_map_setEquityBal_ne _ _ .liability (by simp)]
    rfl

theorem recompute_equity_equity_total {s : SectorLedger} (h : eqCount s ≠ 0) :
    (s.recompute_equity).equity_total = s.assets_total - s.liabilities_total := by
  show sumCat .equity (s.recompute_equity).accounts = _
  rw [recompute_equity_accounts h, sumCat_map_setEquityBal_eq]
  show ((eqCount s : ℚ)) * _ = _
  rw [mul_div_cancel₀]
  exact Nat.cast_ne_zero.mpr h

theorem recompute_equity_net (s : SectorLedger) :
    (s.recompute_equity).net_position = s.net_position := by
  rw [SectorLedger.net_position, SectorLedger.net_position,
    recompute_equity_assets, recompute_equity_liabilities]

theorem recompute_equity_name (s : SectorLedger) :
    (s.recompute_equity).name = s.name := by
  by_cases h : eqCount s = 0
  · rw [recompute_equity_of_no_equity h]
  · rw [eqCount] at h
    simp only [SectorLedger.recompute_equity, if_neg h]

theorem recompute_equity_skeleton (s : SectorLedger) :
    acctSkeleton (s.recompute_equity).accounts = acctSkeleton s.accounts := by
  by_cases h : eqCount s = 0
  · rw [recompute_equity_of_no_equity h]
  · rw [recompute_equity_accounts h, acctSkeleton_map_setEquityBal]

theorem assert_balanced_error {s : SectorLedger} {tol : ℚ} {e : LedgerError}
    (h : s.assert_balanced tol = .error e) : e = .invariantViolation s.name := by
  rw [SectorLedger.assert_balanced] at h
  by_cases h2 : |s.assets_total - s.liabilities_total - s.equity_total| > tol
  · rw [if_pos h2] at h
    exact (Except.error.inj h).symm
  · rw [if_neg h2] at h
    exact absurd h (by simp)

theorem assert_balanced_ok {s : SectorLedger} {tol : ℚ}
    (h : s.assert_balanced tol = .ok ()) :
    ¬(|s.assets_total - s.liabilities_total - s.equity_total| > tol) := by
  intro h2
  rw [SectorLedger.assert_balanced, if_pos h2] at h
  exact absurd h (by simp)

theorem recompute_mapM_ok : ∀ {xs ys : List (String × SectorLedger)},
    xs.mapM recomputeSectorStep = .ok ys →
      ys = xs.map (fun kv => (kv.1, kv.2.recompute_equity))
        ∧ ∀ kv ∈ xs, (kv.2.recompute_equity).assert_balanced = .ok () := by
  intro xs
  induction xs with
  | nil =>
    intro ys h
    rw [List.mapM_nil, except_pure_eq] at h
    obtain rfl := Except.ok.inj h
    simp
  | cons kv rest ih =>
    intro ys h
    rw [List.mapM_cons] at h
    cases hstep : recomputeSectorStep kv with
    | error e => rw [hstep] at h; exact absurd h (by simp [except_bind_error])
    | ok y =>
      rw [hstep] at h
      rw [except_bind_ok] at h
      cases hrest : rest.mapM recomputeSectorStep with
      | error e =>
        rw [hrest] at h
        exact absurd h (by simp [except_bind_error])
      | ok ys' =>
        rw [hrest, except_bind_ok, except_pure_eq] at h
        obtain rfl := Except.ok.inj h
        obtain ⟨rfl, hall⟩ := ih hrest
        unfold recomputeSectorStep at hstep
        cases hass : (kv.2.recompute_equity).assert_balanced with
        | error e =>
          simp only [hass] at hstep
          exact absurd hstep (by simp)
        | ok u =>
          obtain rfl : u = () := rfl
          simp only [hass] at hstep
          obtain rfl := Except.ok.inj hstep
          refine ⟨rfl, ?_⟩
          intro kv2 hmem
          rcases List.mem_cons.mp hmem with rfl | hmem
          · exact hass
          · exact hall kv2 hmem

theorem recompute_mapM_error : ∀ {xs : List (String × SectorLedger)}
    {e : LedgerError}, xs.mapM recomputeSectorStep = .error e →
      ∃ nm, e = .invariantViolation nm := by
  intro xs
  induction xs with
  | nil =>
    intro e h
    rw [List.mapM_nil, except_pure_eq] at h
    exact absurd h (by simp)
  | cons kv rest ih =>
    intro e h
    rw [List.mapM_cons] at h
    cases hstep : recomputeSectorStep kv with
    | error e2 =>
      rw [hstep, except_bind_error] at h
      obtain rfl := Except.error.inj h
      unfold recomputeSectorStep at hstep
      cases hass : (kv.2.recompute_equity).assert_balanced with
      | error e3 =>
        simp only [hass] at hstep
        obtain rfl := Except.error.inj hstep
        exact ⟨_, assert_balanced_error hass⟩
      | ok u =>
        simp only [hass] at hstep
        exact absurd hstep (by simp)
    | ok y =>
      rw [hstep, except_bind_ok] at h
      cases hrest : rest.mapM recomputeSectorStep with
      | error e2 =>
        rw [hrest, except_bind_error] at h
        obtain rfl := Except.error.inj h
        exact ih hrest
      | ok ys =>
        rw [hrest, except_bind_ok, except_pure_eq] at h
        exact absurd h (by simp)

/-- Successful Ledger.recompute_equity: the sectors are the recomputed
    ones, the log, skeleton and net-position total are unchanged, and
    every sector passed its balance assertion. -/
theorem ledger_recompute_ok {l l' : Ledger} (h : l.recompute_equity = .ok l') :
    l'.sectors = l.sectors.map (fun kv => (kv.1, kv.2.recompute_equity))
      ∧ l'.transactions = l.transactions
      ∧ l'.skeleton = l.skeleton
      ∧ netTotal l' = netTotal l
      ∧ ∀ kv ∈ l.sectors,
          ¬(|(kv.2.recompute_equity).assets_total
            - (kv.2.recompute_equity).liabilities_total
            - (kv.2.recompute_equity).equity_total| > 1/1000000) := by
  rw [Ledger.recompute_equity] at h
  cases hm : l.sectors.mapM recomputeSectorStep with
  | error e => rw [hm] at h; exact absurd h (by simp)
  | ok ys =>
    rw [hm] at h
    obtain rfl := (Except.ok.inj h).symm
    obtain ⟨rfl, hall⟩ := recompute_mapM_ok hm
    refine ⟨rfl, rfl, ?_, ?_, fun kv hmem => assert_balanced_ok (hall kv hmem)⟩
    · simp only [Ledger.skeleton, List.map_map]
      exact List.map_congr_left fun kv _ => by
        simp [Function.comp, recompute_equity_name, recompute_equity_skeleton]
    · simp only [netTotal, List.map_map]
      exact congrArg List.sum (List.map_congr_left fun kv _ => by
        simp [Function.comp, recompute_equity_net])

theorem ledger_recompute_error {l : Ledger} {e : LedgerError}
    (h : l.recompute_equity = .error e) : ∃ nm, e = .invariantViolation nm := by
  rw [Ledger.recompute_equity] at h
  cases hm : l.sectors.mapM recomputeSectorStep with
  | error e2 =>
    rw [hm] at h
    obtain rfl := Except.error.inj h
    exact recompute_mapM_error hm
  | ok ys => rw [hm] at h; exact absurd h (by simp)

/-! Concrete objects: the default configuration's initial balances and the
    default chart, plus the chart extended with the accounts the
    private-loan and bank-debt flows presuppose. -/

/-- The initial balances of the default configuration
    (config.py ModelConfig.resolve_initial with no override). -/
def defaultInitial : List (String × List (String × ℚ)) :=
  ModelConfig.resolve_initial {}

/-- The ledger holding the default chart over the default initial
    balances, before any equity recomputation. -/
def defaultChartLedger : Ledger :=
  { sectors := default_chart defaultInitial, transactions := [] }

/-- Modelled from the spec's account names: the default chart extended
    with the accounts the private-loan and bank-debt constructors
    reference but ledger.py default_chart does not define -
    Private:PrivateLoansAsset (asset), Private:PrivateLoansLiability
    (liability), Private:BankDebt (liability) and Banks:BankDebt (asset).
    Used only to state the amended transaction balance law. -/
def extended_chart (initial : List (String × List (String × ℚ))) :
    List (String × SectorLedger) :=
  [("Private", make_sector initial "Private"
      [("Deposits", .asset), ("Loans", .liability), ("GovBonds", .asset),
       ("Currency", .asset), ("NetWorth", .equity),
       ("PrivateLoansAsset", .asset), ("PrivateLoansLiability", .liability),
       ("BankDebt", .liability)]),
   ("Banks", make_sector initial "Banks"
      [("Loans", .asset), ("Reserves", .asset), ("Deposits", .liability),
       ("BankEquity", .equity), ("BankDebt", .asset)]),
   ("Government", make_sector initial "Government"
      [("TGA", .asset), ("GovBonds", .liability), ("GovEquity", .equity)]),
   ("CentralBank", make_sector initial "CentralBank"
      [("Reserves", .liability), ("Currency", .liability), ("TGA", .liability),
       ("GovBonds", .asset), ("CBEq", .equity)])]

/-- The ledger holding the extended chart. -/
def extendedChartLedger : Ledger :=
  { sectors := extended_chart defaultInitial, transactions := [] }

theorem total_gov_spending_default (a : ℚ) :
    Transaction.total (tx_government_spending a) defaultChartLedger = .ok 0 := by
  by_cases ha : a = 0
  · subst ha; rfl
  · simp [Transaction.total, tx_government_spending, ha, totalStep, defaultChartLedger,
      defaultInitial, ModelConfig.resolve_initial, default_chart, make_sector,
      lookupA, lookupD, CATEGORY_SIGN, List.foldlM_cons, List.foldlM_nil,
      except_bind_ok, except_bind_error, except_pure_eq]

theorem total_taxes_default (a : ℚ) :
    Transaction.total (tx_taxes a) defaultChartLedger = .ok 0 := by
  by_cases ha : a = 0
  · subst ha; rfl
  · simp [Transaction.total, tx_taxes, ha, totalStep, defaultChartLedger,
      defaultInitial, ModelConfig.resolve_initial, default_chart, make_sector,
      lookupA, lookupD, CATEGORY_SIGN, List.foldlM_cons, List.foldlM_nil,
      except_bind_ok, except_bind_error, except_pure_eq]

theorem total_loan_creation_default (a : ℚ) :
    Transaction.total (tx_loan_creation a) defaultChartLedger = .ok 0 := by
  by_cases ha : a = 0
  · subst ha; rfl
  · simp [Transaction.total, tx_loan_creation, ha, totalStep, defaultChartLedger,
      defaultInitial, ModelConfig.resolve_initial, default_chart, make_sector,
      lookupA, lookupD, CATEGORY_SIGN, List.foldlM_cons, List.foldlM_nil,
      except_bind_ok, except_bind_error, except_pure_eq]

theorem total_loan_repayment_default (a : ℚ) :
    Transaction.total (tx_loan_repayment a) defaultChartLedger = .ok 0 := by
  by_cases ha : a = 0
  · subst ha; rfl
  · simp [Transaction.total, tx_loan_repayment, ha, totalStep, defaultChartLedger,
      defaultInitial, ModelConfig.resolve_initial, default_chart, make_sector,
      lookupA, lookupD, CATEGORY_SIGN, List.foldlM_cons, List.foldlM_nil,
      except_bind_ok, except_bind_error, except_pure_eq]

theorem total_interest_on_loans_default (a : ℚ) :
    Transaction.total (tx_interest_on_loans a) defaultChartLedger = .ok 0 := by
  by_cases ha : a = 0
  · subst ha; rfl
  · simp [Transaction.total, tx_interest_on_loans, ha, totalStep, defaultChartLedger,
      defaultInitial, ModelConfig.resolve_initial, default_chart, make_sector,
      lookupA, lookupD, CATEGORY_SIGN, List.foldlM_cons, List.foldlM_nil,
      except_bind_ok, except_bind_error, except_pure_eq]

theorem total_interest_on_deposits_default (a : ℚ) :
    Transaction.total (tx_interest_on_deposits a) defaultChartLedger = .ok 0 := by
  by_cases ha : a = 0
  · subst ha; rfl
  · simp [Transaction.total, tx_interest_on_deposits, ha, totalStep, defaultChartLedger,
      defaultInitial, ModelConfig.resolve_initial, default_chart, make_sector,
      lookupA, lookupD, CATEGORY_SIGN, List.foldlM_cons, List.foldlM_nil,
      except_bind_ok, except_bind_error, except_pure_eq]

theorem total_interest_on_reserves_default (a : ℚ) :
    Transaction.total (tx_interest_on_reserves a) defaultChartLedger = .ok 0 := by
  by_cases ha : a = 0
  · subst ha; rfl
  · simp [Transaction.total, tx_interest_on_reserves, ha, totalStep, defaultChartLedger,
      defaultInitial, ModelConfig.resolve_initial, default_chart, make_sector,
      lookupA, lookupD, CATEGORY_SIGN, List.foldlM_cons, List.foldlM_nil,
      except_bind_ok, except_bind_error, except_pure_eq]

theorem total_interest_on_bonds_default (a : ℚ) :
    Transaction.total (tx_interest_on_bonds a) defaultChartLedger = .ok 0 := by
  by_cases ha : a = 0
  · subst ha; rfl
  · simp [Transaction.total, tx_interest_on_bonds, ha, totalStep, defaultChartLedger,
      defaultInitial, ModelConfig.resolve_initial, default_chart, make_sector,
      lookupA, lookupD, CATEGORY_SIGN, List.foldlM_cons, List.foldlM_nil,
      except_bind_ok, except_bind_error, except_pure_eq]

theorem total_bond_issue_default (a : ℚ) :
    Transaction.total (tx_bond_issue a) defaultChartLedger = .ok 0 := by
  by_cases ha : a = 0
  · subst ha; rfl
  · simp [Transaction.total, tx_bond_issue, ha, totalStep, defaultChartLedger,
      defaultInitial, ModelConfig.resolve_initial, default_chart, make_sector,
      lookupA, lookupD, CATEGORY_SIGN, List.foldlM_cons, List.foldlM_nil,
      except_bind_ok, except_bind_error, except_pure_eq]

theorem total_bond_sale_to_cb_default (a : ℚ) :
    Transaction.total (tx_bond_sale_to_cb a) defaultChartLedger = .ok 0 := by
  by_cases ha : a = 0
  · subst ha; rfl
  · simp [Transaction.total, tx_bond_sale_to_cb, ha, totalStep, defaultChartLedger,
      defaultInitial, ModelConfig.resolve_initial, default_chart, make_sector,
      lookupA, lookupD, CATEGORY_SIGN, List.foldlM_cons, List.foldlM_nil,
      except_bind_ok, except_bind_error, except_pure_eq]

theorem total_private_loan_creation_extended (a : ℚ) :
    Transaction.total (tx_private_loan_creation a) extendedChartLedger = .ok 0 := by
  by_cases ha : a = 0
  · subst ha; rfl
  · simp [Transaction.total, tx_private_loan_creation, ha, totalStep, extendedChartLedger,
      defaultInitial, ModelConfig.resolve_initial, extended_chart, make_sector,
      lookupA, lookupD, CATEGORY_SIGN, List.foldlM_cons, List.foldlM_nil,
      except_bind_ok, except_bind_error, except_pure_eq]

theorem total_private_loan_repayment_extended (a : ℚ) :
    Transaction.total (tx_private_loan_repayment a) extendedChartLedger = .ok 0 := by
  by_cases ha : a = 0
  · subst ha; rfl
  · simp [Transaction.total, tx_private_loan_repayment, ha, totalStep, extendedChartLedger,
      defaultInitial, ModelConfig.resolve_initial, extended_chart, make_sector,
      lookupA, lookupD, CATEGORY_SIGN, List.foldlM_cons, List.foldlM_nil,
      except_bind_ok, except_bind_error, except_pure_eq]

theorem total_bank_debt_issue_extended (a : ℚ) :
    Transaction.total (tx_bank_debt_issue a) extendedChartLedger = .ok 0 := by
  by_cases ha : a = 0
  · subst ha; rfl
  · simp [Transaction.total, tx_bank_debt_issue, ha, totalStep, extendedChartLedger,
      defaultInitial, ModelConfig.resolve_initial, extended_chart, make_sector,
      lookupA, lookupD, CATEGORY_SIGN, List.foldlM_cons, List.foldlM_nil,
      except_bind_ok, except_bind_error, except_pure_eq]

theorem total_bank_debt_repayment_extended (a : ℚ) :
    Transaction.total (tx_bank_debt_repayment a) extendedChartLedger = .ok 0 := by
  by_cases ha : a = 0
  · subst ha; rfl
  · simp [Transaction.total, tx_bank_debt_repayment, ha, totalStep, extendedChartLedger,
      defaultInitial, ModelConfig.resolve_initial, extended_chart, make_sector,
      lookupA, lookupD, CATEGORY_SIGN, List.foldlM_cons, List.foldlM_nil,
      except_bind_ok, except_bind_error, except_pure_eq]

theorem total_private_loan_creation_default {a : ℚ} (ha : a ≠ 0) :
    Transaction.total (tx_private_loan_creation a) defaultChartLedger =
      .error (.unknownAccount "PrivateLoansAsset") := by
  simp [Transaction.total, tx_private_loan_creation, ha, totalStep, defaultChartLedger,
    defaultInitial, ModelConfig.resolve_initial, default_chart, make_sector,
    lookupA, lookupD, CATEGORY_SIGN, List.foldlM_cons, List.foldlM_nil,
    except_bind_ok, except_bind_error, except_pure_eq]

theorem total_private_loan_repayment_default {a : ℚ} (ha : a ≠ 0) :
    Transaction.total (tx_private_loan_repayment a) defaultChartLedger =
      .error (.unknownAccount "PrivateLoansAsset") := by
  simp [Transaction.total, tx_private_loan_repayment, ha, totalStep, defaultChartLedger,
    defaultInitial, ModelConfig.resolve_initial, default_chart, make_sector,
    lookupA, lookupD, CATEGORY_SIGN, List.foldlM_cons, List.foldlM_nil,
    except_bind_ok, except_bind_error, except_pure_eq]

theorem total_bank_debt_issue_default {a : ℚ} (ha : a ≠ 0) :
    Transaction.total (tx_bank_debt_issue a) defaultChartLedger =
      .error (.unknownAccount "BankDebt") := by
  simp [Transaction.total, tx_bank_debt_issue, ha, totalStep, defaultChartLedger,
    defaultInitial, ModelConfig.resolve_initial, default_chart, make_sector,
    lookupA, lookupD, CATEGORY_SIGN, List.foldlM_cons, List.foldlM_nil,
    except_bind_ok, except_bind_error, except_pure_eq]

theorem total_bank_debt_repayment_default {a : ℚ} (ha : a ≠ 0) :
    Transaction.total (tx_bank_debt_repayment a) defaultChartLedger =
      .error (.unknownAccount "BankDebt") := by
  simp [Transaction.total, tx_bank_debt_repayment, ha, totalStep, defaultChartLedger,
    defaultInitial, ModelConfig.resolve_initial, default_chart, make_sector,
    lookupA, lookupD, CATEGORY_SIGN, List.foldlM_cons, List.foldlM_nil,
    except_bind_ok, except_bind_error, except_pure_eq]

/-- C1 counterexample: the claim includes the private-loan constructors
    and evaluates signs over the default chart, but tx_private_loan_creation
    at amount 1 references an account the default chart does not define,
    so its signed total over the default chart is a missing-account error,
    not 0. -/
theorem C1_counterexample :
    Transaction.total (tx_private_loan_creation 1) defaultChartLedger =
        .error (.unknownAccount "PrivateLoansAsset")
      ∧ Transaction.total (tx_private_loan_creation 1) defaultChartLedger ≠
        .ok 0 := by
  refine ⟨rfl, ?_⟩
  rw [show Transaction.total (tx_private_loan_creation 1) defaultChartLedger =
    .error (.unknownAccount "PrivateLoansAsset") from rfl]
  simp

/-- C1 (amended): for every amount, the ten catalogue constructors whose
    postings reference default-chart accounts return transactions whose
    signed posting sum over the default chart's category signs is exactly
    0; the four private-loan and bank-debt constructors reference accounts
    the default chart does not define, so for nonzero amounts their signed
    total over the default chart is an unknown-account error, while over
    the chart extended with the presupposed categories (PrivateLoansAsset
    and Banks:BankDebt as assets, PrivateLoansLiability and
    Private:BankDebt as liabilities) their signed sum is also exactly 0. -/
theorem C1_balance_law (a : ℚ) :
    Transaction.total (tx_government_spending a) defaultChartLedger = .ok 0
  ∧ Transaction.total (tx_taxes a) defaultChartLedger = .ok 0
  ∧ Transaction.total (tx_loan_creation a) defaultChartLedger = .ok 0
  ∧ Transaction.total (tx_loan_repayment a) defaultChartLedger = .ok 0
  ∧ Transaction.total (tx_interest_on_loans a) defaultChartLedger = .ok 0
  ∧ Transaction.total (tx_interest_on_deposits a) defaultChartLedger = .ok 0
  ∧ Transaction.total (tx_interest_on_reserves a) defaultChartLedger = .ok 0
  ∧ Transaction.total (tx_interest_on_bonds a) defaultChartLedger = .ok 0
  ∧ Transaction.total (tx_bond_issue a) defaultChartLedger = .ok 0
  ∧ Transaction.total (tx_bond_sale_to_cb a) defaultChartLedger = .ok 0
  ∧ Transaction.total (tx_private_loan_creation a) extendedChartLedger = .ok 0
  ∧ Transaction.total (tx_private_loan_repayment a) extendedChartLedger = .ok 0
  ∧ Transaction.total (tx_bank_debt_issue a) extendedChartLedger = .ok 0
  ∧ Transaction.total (tx_bank_debt_repayment a) extendedChartLedger = .ok 0
  ∧ (a ≠ 0 → Transaction.total (tx_private_loan_creation a) defaultChartLedger =
      .error (.unknownAccount "PrivateLoansAsset"))
  ∧ (a ≠ 0 → Transaction.total (tx_private_loan_repayment a) defaultChartLedger =
      .error (.unknownAccount "PrivateLoansAsset"))
  ∧ (a ≠ 0 → Transaction.total (tx_bank_debt_issue a) defaultChartLedger =
      .error (.unknownAccount "BankDebt"))
  ∧ (a ≠ 0 → Transaction.total (tx_bank_debt_repayment a) defaultChartLedger =
      .error (.unknownAccount "BankDebt")) :=
  ⟨total_gov_spending_default a, total_taxes_default a,
   total_loan_creation_default a, total_loan_repayment_default a,
   total_interest_on_loans_default a, total_interest_on_deposits_default a,
   total_interest_on_reserves_default a, total_interest_on_bonds_default a,
   total_bond_issue_default a, total_bond_sale_to_cb_default a,
   total_private_loan_creation_extended a, total_private_loan_repayment_extended a,
   total_bank_debt_issue_extended a, total_bank_debt_repayment_extended a,
   fun ha => total_private_loan_creation_default ha,
   fun ha => total_private_loan_repayment_default ha,
   fun ha => total_bank_debt_issue_default ha,
   fun ha => total_bank_debt_repayment_default ha⟩

/-- C1 witness: the amended balance law instantiated at amount 3, with the
    nonzero hypotheses discharged. -/
theorem C1_balance_law_witness :
    Transaction.total (tx_government_spending 3) defaultChartLedger = .ok 0
  ∧ Transaction.total (tx_private_loan_creation 3) extendedChartLedger = .ok 0
  ∧ Transaction.total (tx_private_loan_creation 3) defaultChartLedger =
      .error (.unknownAccount "PrivateLoansAsset")
  ∧ Transaction.total (tx_private_loan_repayment 3) defaultChartLedger =
      .error (.unknownAccount "PrivateLoansAsset")
  ∧ Transaction.total (tx_bank_debt_issue 3) defaultChartLedger =
      .error (.unknownAccount "BankDebt")
  ∧ Transaction.total (tx_bank_debt_repayment 3) defaultChartLedger =
      .error (.unknownAccount "BankDebt") := by
  obtain ⟨h1, -, -, -, -, -, -, -, -, -, h11, -, -, -, h15, h16, h17, h18⟩ :=
    C1_balance_law 3
  exact ⟨h1, h11, h15 (by norm_num), h16 (by norm_num), h17 (by norm_num),
    h18 (by norm_num)⟩

theorem mapM_ok_of_all {α β : Type} (f : α → Except LedgerError β) :
    ∀ {xs : List α}, (∀ x ∈ xs, ∃ y, f x = .ok y) →
      ∃ ys, xs.mapM f = .ok ys := by
  intro xs
  induction xs with
  | nil => intro h; exact ⟨[], by rw [List.mapM_nil, except_pure_eq]⟩
  | cons x rest ih =>
    intro h
    obtain ⟨y, hy⟩ := h x (List.mem_cons_self x rest)
    obtain ⟨ys, hys⟩ := ih (fun z hz => h z (List.mem_cons_of_mem x hz))
    exact ⟨y :: ys, by
      rw [List.mapM_cons, hy, except_bind_ok, hys, except_bind_ok, except_pure_eq]⟩

/-- A sector whose equity count is positive passes assert_balanced after
    recomputation: the even split restores A - L - E = 0 exactly. -/
theorem recompute_sector_assert_ok {s : SectorLedger} (h : eqCount s ≠ 0)
    {tol : ℚ} (htol : 0 ≤ tol) :
    (s.recompute_equity).assert_balanced tol = .ok () := by
  rw [SectorLedger.assert_balanced, if_neg]
  rw [recompute_equity_assets, recompute_equity_liabilities,
    recompute_equity_equity_total h]
  simp [htol]

theorem eqCount_default_chart :
    ∀ kv ∈ default_chart defaultInitial, eqCount kv.2 ≠ 0 := by
  decide

/-- The default ledger construction succeeds, with the default chart's
    skeleton. -/
theorem build_default_ledger_ok :
    ∃ l, build_default_ledger defaultInitial = .ok l
      ∧ l.skeleton = defaultChartLedger.skeleton
      ∧ netTotal l = netTotal defaultChartLedger := by
  have hall : ∀ kv ∈ defaultChartLedger.sectors,
      ∃ y, recomputeSectorStep kv = .ok y := by
    intro kv hmem
    refine ⟨(kv.1, kv.2.recompute_equity), ?_⟩
    have hok := recompute_sector_assert_ok (eqCount_default_chart kv hmem)
      (show (0:ℚ) ≤ 1/1000000 by norm_num)
    unfold recomputeSectorStep
    simp only [hok]
  obtain ⟨ys, hys⟩ := mapM_ok_of_all recomputeSectorStep hall
  have hrec : defaultChartLedger.recompute_equity =
      .ok { defaultChartLedger with sectors := ys } := by
    rw [Ledger.recompute_equity, hys]
  obtain ⟨-, -, hskel, hnet, -⟩ := ledger_recompute_ok hrec
  exact ⟨_, hrec, hskel, hnet⟩

theorem catOf_default_missing :
    catOf defaultChartLedger "Private" "PrivateLoansAsset" = none
      ∧ catOf defaultChartLedger "Private" "PrivateLoansLiability" = none
      ∧ catOf defaultChartLedger "Private" "BankDebt" = none
      ∧ catOf defaultChartLedger "Banks" "BankDebt" = none := by
  refine ⟨rfl, rfl, rfl, rfl⟩

/-- C10: applying any private-loan or bank-debt transaction with nonzero
    amount to the freshly built default ledger fails with an
    unknown-account error; the default chart defines none of the three
    presupposed accounts in any sector even though the default initial
    mapping names them, and the default configuration's
    private_loan_growth of 0 makes the private-loan flow an empty no-op
    that selection filters out before apply. -/
theorem C10_private_accounts_missing (a : ℚ) (ha : a ≠ 0) :
    (∃ nm, (build_default_ledger defaultInitial >>= fun l =>
        l.apply (tx_private_loan_creation a)) = .error (.unknownAccount nm))
  ∧ (∃ nm, (build_default_ledger defaultInitial >>= fun l =>
        l.apply (tx_private_loan_repayment a)) = .error (.unknownAccount nm))
  ∧ (∃ nm, (build_default_ledger defaultInitial >>= fun l =>
        l.apply (tx_bank_debt_issue a)) = .error (.unknownAccount nm))
  ∧ (∃ nm, (build_default_ledger defaultInitial >>= fun l =>
        l.apply (tx_bank_debt_repayment a)) = .error (.unknownAccount nm))
  ∧ (∀ kv ∈ defaultChartLedger.sectors,
        lookupA kv.2.accounts "PrivateLoansAsset" = none
      ∧ lookupA kv.2.accounts "PrivateLoansLiability" = none
      ∧ lookupA kv.2.accounts "BankDebt" = none)
  ∧ lookupA (lookupD defaultInitial "Private" []) "PrivateLoansAsset" = some 0
  ∧ lookupA (lookupD defaultInitial "Private" []) "PrivateLoansLiability" = some 0
  ∧ lookupA (lookupD defaultInitial "Private" []) "BankDebt" = some 0
  ∧ ({} : ModelConfig).private_loan_growth = 0
  ∧ (∀ t balances, resolve_private_loan_change {} t balances = 0)
  ∧ (∀ t balances, select_transactions
        [tx_private_loan_creation (resolve_private_loan_change {} t balances)] = []) := by
  obtain ⟨l, hl, hskel, -⟩ := build_default_ledger_ok
  have happ : ∀ tx : Transaction,
      (∃ p ∈ tx.postings, catOf defaultChartLedger p.sector p.account = none) →
      ∃ nm, (build_default_ledger defaultInitial >>= fun l2 =>
        l2.apply tx) = .error (.unknownAccount nm) := by
    intro tx hmiss
    obtain ⟨p, hp, hnone⟩ := hmiss
    obtain ⟨nm, hnm⟩ := apply_of_unresolvable (1/1000000)
      ⟨p, hp, by rw [catOf_congr hskel]; exact hnone⟩
    exact ⟨nm, by rw [hl, except_bind_ok]; exact hnm⟩
  refine ⟨?_, ?_, ?_, ?_, ?_, rfl, rfl, rfl, rfl, ?_, ?_⟩
  · exact happ _ ⟨⟨"Private", "PrivateLoansAsset", a⟩,
      by simp [tx_private_loan_creation, ha], rfl⟩
  · exact happ _ ⟨⟨"Private", "PrivateLoansAsset", -a⟩,
      by simp [tx_private_loan_repayment, ha], rfl⟩
  · exact happ _ ⟨⟨"Private", "BankDebt", a⟩,
      by simp [tx_bank_debt_issue, ha], rfl⟩
  · exact happ _ ⟨⟨"Private", "BankDebt", -a⟩,
      by simp [tx_bank_debt_repayment, ha], rfl⟩
  · decide
  · intro t balances
    rw [resolve_private_loan_change]
    show (0 : ℚ) * _ = 0
    ring
  · intro t balances
    have h0 : resolve_private_loan_change {} t balances = 0 := by
      rw [resolve_private_loan_change]
      show (0 : ℚ) * _ = 0
      ring
    rw [h0]
    rfl

/-- C10 witness: the missing-account behaviour instantiated at amount 1. -/
theorem C10_private_accounts_missing_witness :
    (∃ nm, (build_default_ledger defaultInitial >>= fun l =>
        l.apply (tx_private_loan_creation 1)) = .error (.unknownAccount nm))
  ∧ (∃ nm, (build_default_ledger defaultInitial >>= fun l =>
        l.apply (tx_bank_debt_issue 1)) = .error (.unknownAccount nm))
  ∧ ({} : ModelConfig).private_loan_growth = 0 := by
  obtain ⟨h1, -, h3, -, -, -, -, -, h9, -, -⟩ :=
    C10_private_accounts_missing 1 (by norm_num)
  exact ⟨h1, h3, h9⟩

/-- C3: Ledger.apply rejects with the unbalanced error exactly when the
    signed total exists and exceeds the tolerance, rejects with the
    missing-key error when some posting references an unknown sector or
    account, succeeds otherwise with every posting's delta added to its
    account and the transaction appended to the log, and these are the
    only error shapes.  The embedding passes ledger state functionally, so
    a rejection leaves the input ledger unchanged by construction,
    matching the validate-then-apply order of the Python code. -/
theorem C3_apply_semantics (l : Ledger) (tx : Transaction) (tol : ℚ) :
    (∀ t, tx.total l = .ok t → |t| > tol →
        l.apply tx tol = .error (.unbalanced tx.name t))
  ∧ ((∃ p ∈ tx.postings, catOf l p.sector p.account = none) →
        ∃ nm, l.apply tx tol = .error (.unknownAccount nm))
  ∧ (∀ t, tx.total l = .ok t → ¬(|t| > tol) →
        ∃ l', l.apply tx tol = .ok l'
          ∧ l'.transactions = l.transactions ++ [tx]
          ∧ ∀ s a b, balOf l s a = some b →
              balOf l' s a = some (b + postSum tx.postings s a))
  ∧ (∀ e, l.apply tx tol = .error e →
        (∃ nm, e = .unknownAccount nm)
          ∨ ∃ t, e = .unbalanced tx.name t ∧ |t| > tol) := by
  refine ⟨fun t ht h2 => apply_of_unbalanced ht h2,
    fun h => apply_of_unresolvable tol h,
    fun t ht h2 => ?_, fun e he => ?_⟩
  · obtain ⟨l', h1, h2', -, -, h5⟩ := apply_of_balanced ht h2
    exact ⟨l', h1, h2', h5⟩
  · cases htot : tx.total l with
    | error e2 =>
      have h2 := apply_of_total_error tol htot
      rw [he] at h2
      obtain rfl := Except.error.inj h2
      exact Or.inl (total_error_shape htot)
    | ok t =>
      by_cases hb : |t| > tol
      · have h2 := apply_of_unbalanced htot hb
        rw [he] at h2
        obtain rfl := Except.error.inj h2
        exact Or.inr ⟨t, rfl, hb⟩
      · obtain ⟨l', h1, -⟩ := apply_of_balanced htot hb
        rw [he] at h1
        exact absurd h1 (by simp)

/-- A miniature ledger exercising the apply error and success paths: one
    sector with an asset and a liability account and no equity account. -/
def c3Ledger : Ledger :=
  { sectors := [("S", { name := "S", accounts :=
      [("Cash", { name := "Cash", category := .asset, balance := 5 }),
       ("Debt", { name := "Debt", category := .liability, balance := 0 })] })],
    transactions := [] }

/-- A one-posting transaction whose signed total is 1: unbalanced. -/
def c3TxUnbalanced : Transaction := { name := "t", postings := [⟨"S", "Cash", 1⟩] }

/-- A transaction referencing a nonexistent account. -/
def c3TxUnknown : Transaction := { name := "u", postings := [⟨"S", "Gold", 1⟩] }

/-- A balanced transaction: +2 to the asset and +2 to the liability. -/
def c3TxGood : Transaction :=
  { name := "g", postings := [⟨"S", "Cash", 2⟩, ⟨"S", "Debt", 2⟩] }

/-- C3 witness: the three apply behaviours at concrete inputs. -/
theorem C3_apply_semantics_witness :
    Ledger.apply c3Ledger c3TxUnbalanced (1/1000000) = .error (.unbalanced "t" 1)
  ∧ (∃ nm, Ledger.apply c3Ledger c3TxUnknown (1/1000000) =
      .error (.unknownAccount nm))
  ∧ (∃ l', Ledger.apply c3Ledger c3TxGood (1/1000000) = .ok l'
      ∧ l'.transactions = c3Ledger.transactions ++ [c3TxGood]
      ∧ balOf l' "S" "Cash" = some (5 + postSum c3TxGood.postings "S" "Cash")) := by
  have ht1 : c3TxUnbalanced.total c3Ledger = .ok 1 := by
    simp [Transaction.total, c3TxUnbalanced, c3Ledger, totalStep, lookupA,
      CATEGORY_SIGN, List.foldlM_cons, List.foldlM_nil, except_bind_ok,
      except_pure_eq]
  have ht3 : c3TxGood.total c3Ledger = .ok 0 := by
    simp [Transaction.total, c3TxGood, c3Ledger, totalStep, lookupA,
      CATEGORY_SIGN, List.foldlM_cons, List.foldlM_nil, except_bind_ok,
      except_pure_eq]
  refine ⟨?_, ?_, ?_⟩
  · exact (C3_apply_semantics c3Ledger c3TxUnbalanced (1/1000000)).1 1 ht1
      (by norm_num)
  · exact (C3_apply_semantics c3Ledger c3TxUnknown (1/1000000)).2.1
      ⟨⟨"S", "Gold", 1⟩, by simp [c3TxUnknown], rfl⟩
  · obtain ⟨l', h1, h2, h3⟩ :=
      (C3_apply_semantics c3Ledger c3TxGood (1/1000000)).2.2.1 0 ht3 (by norm_num)
    exact ⟨l', h1, h2, h3 "S" "Cash" 5 rfl⟩

/-- C4: recompute_equity sets every equity account of a sector that has
    n >= 1 equity accounts to (assets − liabilities)/n (an even split),
    leaves sectors without equity accounts unchanged, and at ledger level
    success means every post-recomputation sector satisfies
    |A − L − E| <= 1e-6 while the only failure is the
    balance-sheet-invariant violation. -/
theorem C4_recompute_semantics (l : Ledger) (s : SectorLedger) :
    (eqCount s = 0 → s.recompute_equity = s)
  ∧ (eqCount s ≠ 0 → ∀ kv ∈ (s.recompute_equity).accounts,
        kv.2.category = .equity →
        kv.2.balance = (s.assets_total - s.liabilities_total) / (eqCount s : ℚ))
  ∧ (∀ l', l.recompute_equity = .ok l' →
        l'.sectors = l.sectors.map (fun kv => (kv.1, kv.2.recompute_equity))
        ∧ ∀ kv ∈ l'.sectors,
            |kv.2.assets_total - kv.2.liabilities_total - kv.2.equity_total|
              ≤ 1/1000000)
  ∧ (∀ e, l.recompute_equity = .error e → ∃ nm, e = .invariantViolation nm) := by
  refine ⟨fun h => recompute_equity_of_no_equity h,
    fun h => recompute_equity_split h,
    fun l' hok => ?_,
    fun e he => ledger_recompute_error he⟩
  obtain ⟨hsec, -, -, -, hbal⟩ := ledger_recompute_ok hok
  refine ⟨hsec, ?_⟩
  intro kv hmem
  rw [hsec] at hmem
  obtain ⟨kv0, hk0, rfl⟩ := List.mem_map.mp hmem
  exact not_lt.mp (hbal kv0 hk0)

/-- A sector with no equity account and a nonzero net position. -/
def c4NoEqSector : SectorLedger :=
  { name := "N", accounts :=
      [("Cash", { name := "Cash", category := .asset, balance := 5 })] }

/-- A sector with one equity account, assets 9 and liabilities 4. -/
def c4EqSector : SectorLedger :=
  { name := "E", accounts :=
      [("A", { name := "A", category := .asset, balance := 9 }),
       ("L", { name := "L", category := .liability, balance := 4 }),
       ("Q", { name := "Q", category := .equity, balance := 0 })] }

/-- A ledger whose only sector recomputes to a balanced sheet. -/
def c4GoodLedger : Ledger := { sectors := [("E", c4EqSector)], transactions := [] }

/-- A ledger whose only sector has no equity account and stays
    unbalanced, so recompute_equity must fail. -/
def c4BadLedger : Ledger := { sectors := [("N", c4NoEqSector)], transactions := [] }

/-- C4 witness: the no-equity, even-split, success and failure behaviours
    at concrete inputs. -/
theorem C4_recompute_semantics_witness :
    c4NoEqSector.recompute_equity = c4NoEqSector
  ∧ (("Q", ({ name := "Q", category := .equity, balance := 5 } : Account)).2.balance
      = (c4EqSector.assets_total - c4EqSector.liabilities_total)
          / (eqCount c4EqSector : ℚ))
  ∧ (∃ l', c4GoodLedger.recompute_equity = .ok l'
      ∧ l'.sectors = c4GoodLedger.sectors.map
          (fun kv => (kv.1, kv.2.recompute_equity)))
  ∧ (∃ nm, (LedgerError.invariantViolation "N") = .invariantViolation nm)
  ∧ c4BadLedger.recompute_equity = .error (.invariantViolation "N") := by
  have hassert : c4NoEqSector.assert_balanced (1/1000000) =
      .error (.invariantViolation "N") := by
    rw [SectorLedger.assert_balanced, if_pos]
    · rfl
    · simp only [c4NoEqSector, SectorLedger.assets_total,
        SectorLedger.liabilities_total, SectorLedger.equity_total, sumCat,
        List.map_cons, List.map_nil, List.sum_cons, List.sum_nil]
      rw [if_neg (show ¬Category.asset = Category.liability from by decide),
        if_neg (show ¬Category.asset = Category.equity from by decide)]
      norm_num [abs_of_nonneg]
  have hstep : recomputeSectorStep ("N", c4NoEqSector) =
      .error (.invariantViolation "N") := by
    unfold recomputeSectorStep
    simp only [recompute_equity_of_no_equity
      (show eqCount c4NoEqSector = 0 by decide), hassert]
  have hbad : c4BadLedger.recompute_equity = .error (.invariantViolation "N") := by
    have hm : c4BadLedger.sectors.mapM recomputeSectorStep =
        .error (.invariantViolation "N") := by
      rw [show c4BadLedger.sectors = [("N", c4NoEqSector)] from rfl,
        List.mapM_cons, hstep, except_bind_error]
    rw [Ledger.recompute_equity]
    simp only [hm]
  have hA : c4EqSector.assets_total = 9 := by
    norm_num [c4EqSector, SectorLedger.assets_total, sumCat] <;> decide
  have hL : c4EqSector.liabilities_total = 4 := by
    norm_num [c4EqSector, SectorLedger.liabilities_total, sumCat] <;> decide
  have hsplit : (c4EqSector.assets_total - c4EqSector.liabilities_total)
      / (eqCount c4EqSector : ℚ) = 5 := by
    rw [hA, hL, show eqCount c4EqSector = 1 from by decide]
    norm_num
  have hmem : ("Q", ({ name := "Q", category := .equity, balance := 5 } : Account))
      ∈ (c4EqSector.recompute_equity).accounts := by
    rw [recompute_equity_accounts (show eqCount c4EqSector ≠ 0 by decide), hsplit]
    simp [c4EqSector, setEquityBal]
  have hgood : ∃ l', c4GoodLedger.recompute_equity = .ok l' := by
    have hall : ∀ kv ∈ c4GoodLedger.sectors,
        ∃ y, recomputeSectorStep kv = .ok y := by
      intro kv hmem2
      refine ⟨(kv.1, kv.2.recompute_equity), ?_⟩
      have hcnt : eqCount kv.2 ≠ 0 := by
        simp only [c4GoodLedger, List.mem_singleton] at hmem2
        subst hmem2
        decide
      have hok := recompute_sector_assert_ok hcnt
        (show (0:ℚ) ≤ 1/1000000 by norm_num)
      unfold recomputeSectorStep
      simp only [hok]
    obtain ⟨ys, hys⟩ := mapM_ok_of_all recomputeSectorStep hall
    exact ⟨_, by rw [Ledger.recompute_equity, hys]⟩
  obtain ⟨l', hl'⟩ := hgood
  refine ⟨(C4_recompute_semantics c4BadLedger c4NoEqSector).1 (by decide),
    (C4_recompute_semantics c4BadLedger c4EqSector).2.1 (by decide) _ hmem rfl,
    ⟨l', hl', ((C4_recompute_semantics c4GoodLedger c4EqSector).2.2.1 l' hl').1⟩,
    (C4_recompute_semantics c4BadLedger c4NoEqSector).2.2.2 _ hbad,
    hbad⟩

/-- Destructor for a successful apply: log appended, skeleton unchanged,
    net total shifted by the weighted posting sum, balances accumulated,
    and the total validated within tolerance. -/
theorem apply_ok_dest {l : Ledger} {tx : Transaction} {tol : ℚ} {l' : Ledger}
    (h : l.apply tx tol = .ok l') :
    l'.transactions = l.transactions ++ [tx]
      ∧ l'.skeleton = l.skeleton
      ∧ netTotal l' = netTotal l + neSum l tx.postings
      ∧ (∃ t, tx.total l = .ok t ∧ ¬(|t| > tol))
      ∧ ∀ s a b, balOf l s a = some b →
          balOf l' s a = some (b + postSum tx.postings s a) := by
  rw [Ledger.apply] at h
  cases htot : tx.total l with
  | error e =>
    simp only [htot] at h
    exact absurd h (by simp)
  | ok t =>
    simp only [htot] at h
    by_cases hb : |t| > tol
    · rw [if_pos hb] at h
      exact absurd h (by simp)
    · rw [if_neg hb] at h
      cases hps : l.applyPostings tx.postings with
      | error e =>
        simp only [hps] at h
        exact absurd h (by simp)
      | ok l1 =>
        simp only [hps] at h
        obtain rfl := (Except.ok.inj h).symm
        obtain ⟨hskel, htrans, hnet, hbal⟩ := applyPostings_ok hps
        exact ⟨by rw [htrans], hskel, hnet, ⟨t, rfl, hb⟩, hbal⟩

/-- Folding apply over a transaction list appends exactly those
    transactions to the log and preserves the skeleton. -/
theorem foldl_apply_ok {txs : List Transaction} :
    ∀ {l l' : Ledger},
      txs.foldlM (fun l tx => Ledger.apply l tx) l = .ok l' →
      l'.transactions = l.transactions ++ txs ∧ l'.skeleton = l.skeleton := by
  induction txs with
  | nil =>
    intro l l' h
    obtain rfl := Except.ok.inj h
    simp
  | cons tx rest ih =>
    intro l l' h
    rw [List.foldlM_cons] at h
    cases h1 : Ledger.apply l tx with
    | error e => rw [h1, except_bind_error] at h; exact absurd h (by simp)
    | ok l1 =>
      rw [h1, except_bind_ok] at h
      obtain ⟨ht, hs⟩ := ih h
      obtain ⟨ht1, hs1, -, -, -⟩ := apply_ok_dest h1
      exact ⟨by rw [ht, ht1, List.append_assoc, List.singleton_append],
        hs.trans hs1⟩

/-- Destructor for a successful stepCore run: the selected transactions
    applied in order, then the TGA gap computed against the
    post-transaction snapshot and, when it exceeds the tolerance, financed
    by a bond issue of exactly the gap. -/
theorem stepCore_ok_dest {cfg : ModelConfig} {l : Ledger} {t : Nat}
    {r : Ledger × List (String × ℚ)} (h : stepCore cfg l t = .ok r) :
    ∃ l1, (select_transactions (stepTxs cfg t l.snapshot)).foldlM
        (fun l tx => Ledger.apply l tx) l = .ok l1
      ∧ ((|cfg.tga_target - get_balance l1.snapshot "Government" "TGA"| > 1/1000000
            ∧ l1.apply (tx_bond_issue (cfg.tga_target
                - get_balance l1.snapshot "Government" "TGA")) = .ok r.1
            ∧ r.2 = stepFlows2 cfg t l.snapshot
                ++ [("bond_issuance", cfg.tga_target
                      - get_balance l1.snapshot "Government" "TGA")])
        ∨ (¬(|cfg.tga_target - get_balance l1.snapshot "Government" "TGA"|
              > 1/1000000)
            ∧ r.1 = l1
            ∧ r.2 = stepFlows2 cfg t l.snapshot ++ [("bond_issuance", 0)])) := by
  unfold stepCore at h
  cases hf : (select_transactions (stepTxs cfg t l.snapshot)).foldlM
      (fun l tx => Ledger.apply l tx) l with
  | error e =>
    simp only [hf] at h
    exact absurd h (by simp)
  | ok l1 =>
    simp only [hf] at h
    refine ⟨l1, rfl, ?_⟩
    by_cases hgap : |cfg.tga_target - get_balance l1.snapshot "Government" "TGA"|
        > 1/1000000
    · rw [if_pos hgap] at h
      cases hb : l1.apply (tx_bond_issue (cfg.tga_target
          - get_balance l1.snapshot "Government" "TGA")) with
      | error e =>
        simp only [hb] at h
        exact absurd h (by simp)
      | ok l2 =>
        simp only [hb] at h
        obtain rfl := (Except.ok.inj h).symm
        exact Or.inl ⟨hgap, rfl, rfl⟩
    · rw [if_neg hgap] at h
      obtain rfl := (Except.ok.inj h).symm
      exact Or.inr ⟨hgap, rfl, rfl⟩

/-- C8: the per-step transaction sequence is built strictly ordered from
    the pre-step snapshot: loan adjustment (creation when
    loan_change >= 0, else repayment clamped to min(-loan_change,
    pre-step Private deposits)), the private-loan adjustment with the same
    clamp against the pre-step private-loan asset balance, the four
    interest transactions, government spending, taxes; eight entries in
    all. -/
theorem C8_step_sequence (cfg : ModelConfig) (l : Ledger) (t : Nat) :
    stepTxs cfg t l.snapshot =
      [(if resolve_loan_change cfg t l.snapshot ≥ 0 then
          tx_loan_creation (resolve_loan_change cfg t l.snapshot)
        else
          tx_loan_repayment (min (-(resolve_loan_change cfg t l.snapshot))
            (get_balance l.snapshot "Private" "Deposits"))),
       (if resolve_private_loan_change cfg t l.snapshot ≥ 0 then
          tx_private_loan_creation (resolve_private_loan_change cfg t l.snapshot)
        else
          tx_private_loan_repayment
            (min (-(resolve_private_loan_change cfg t l.snapshot))
              (get_balance l.snapshot "Private" "PrivateLoansAsset"))),
       tx_interest_on_loans
         (cfg.loan_rate * get_balance l.snapshot "Private" "Loans"),
       tx_interest_on_deposits
         (cfg.deposit_rate * get_balance l.snapshot "Private" "Deposits"),
       tx_interest_on_reserves
         (cfg.reserve_rate * get_balance l.snapshot "Banks" "Reserves"),
       tx_interest_on_bonds
         (cfg.bond_rate * get_balance l.snapshot "Private" "GovBonds"),
       tx_government_spending (resolve_gov_spending cfg t),
       tx_taxes (resolve_tax cfg t l.snapshot (stepFlows1 cfg t l.snapshot))]
    ∧ (stepTxs cfg t l.snapshot).length = 8 := by
  have heq : stepTxs cfg t l.snapshot = _ := rfl
  constructor
  · by_cases h1 : resolve_loan_change cfg t l.snapshot ≥ 0 <;>
      by_cases h2 : resolve_private_loan_change cfg t l.snapshot ≥ 0 <;>
        simp [stepTxs, buildStepTxs, stepFlows2, stepFlows1, lookupD, lookupA,
          h1, h2]
  · by_cases h1 : resolve_loan_change cfg t l.snapshot ≥ 0 <;>
      by_cases h2 : resolve_private_loan_change cfg t l.snapshot ≥ 0 <;>
        simp [stepTxs, buildStepTxs, h1, h2]

/-- The new entries of an extended log all carry nonempty postings. -/
def logOnlyNonempty (old new : List Transaction) : Prop :=
  new.take old.length = old
    ∧ (new.drop old.length).all (fun tx => !tx.postings.isEmpty) = true

theorem mem_select_nonempty {txs : List Transaction} {tx : Transaction}
    (h : tx ∈ select_transactions txs) : tx.postings ≠ [] := by
  rw [select_transactions] at h
  have := (List.mem_filter.mp h).2
  exact of_decide_eq_true this

theorem logOnlyNonempty_append (old add : List Transaction)
    (h : ∀ tx ∈ add, tx.postings ≠ []) : logOnlyNonempty old (old ++ add) := by
  refine ⟨List.take_left old add, ?_⟩
  rw [List.drop_left old add, List.all_eq_true]
  intro tx hmem
  simpa [List.isEmpty_iff] using h tx hmem

/-- C9: a zero-amount catalogue constructor returns an empty posting
    list; select_transactions keeps exactly the transactions with
    nonempty postings; and a successful stepCore run appends to the
    transaction log only transactions with nonempty postings (the
    filtered selection plus, when financing fires, a nonzero bond
    issue). -/
theorem C9_zero_flows_filtered :
    (tx_government_spending 0).postings = []
  ∧ (tx_taxes 0).postings = []
  ∧ (tx_loan_creation 0).postings = []
  ∧ (tx_loan_repayment 0).postings = []
  ∧ (tx_private_loan_creation 0).postings = []
  ∧ (tx_private_loan_repayment 0).postings = []
  ∧ (tx_interest_on_loans 0).postings = []
  ∧ (tx_interest_on_deposits 0).postings = []
  ∧ (tx_interest_on_reserves 0).postings = []
  ∧ (tx_interest_on_bonds 0).postings = []
  ∧ (tx_bond_issue 0).postings = []
  ∧ (tx_bond_sale_to_cb 0).postings = []
  ∧ (tx_bank_debt_issue 0).postings = []
  ∧ (tx_bank_debt_repayment 0).postings = []
  ∧ (∀ txs, select_transactions txs =
      txs.filter (fun tx => tx.postings ≠ []))
  ∧ (∀ cfg l t r, stepCore cfg l t = Except.ok r →
      logOnlyNonempty l.transactions r.1.transactions) := by
  refine ⟨rfl, rfl, rfl, rfl, rfl, rfl, rfl, rfl, rfl, rfl, rfl, rfl, rfl, rfl,
    fun txs => rfl, ?_⟩
  intro cfg l t r h
  obtain ⟨l1, hf, hrest⟩ := stepCore_ok_dest h
  obtain ⟨ht1, -⟩ := foldl_apply_ok hf
  rcases hrest with ⟨hgap, hb, -⟩ | ⟨-, rfl, -⟩
  · obtain ⟨ht2, -, -, -, -⟩ := apply_ok_dest hb
    rw [ht2, ht1, List.append_assoc]
    refine logOnlyNonempty_append _ _ ?_
    intro tx hmem
    rcases List.mem_append.mp hmem with hmem | hmem
    · exact mem_select_nonempty hmem
    · obtain rfl := List.mem_singleton.mp hmem
      have hg : cfg.tga_target - get_balance l1.snapshot "Government" "TGA" ≠ 0 := by
        intro h0
        rw [h0] at hgap
        norm_num at hgap
      simp [tx_bond_issue, hg]
  · rw [ht1]
    exact logOnlyNonempty_append _ _ (fun tx hmem => mem_select_nonempty hmem)

/-- A configuration with all rates, spending and growth set to zero. -/
def c9ZeroConfig : ModelConfig :=
  { gov_spending := 0, tax_rate := 0, loan_growth := 0, private_loan_growth := 0,
    deposit_rate := 0, loan_rate := 0, reserve_rate := 0, bond_rate := 0 }

/-- C9 witness: a concrete step in which every built transaction is a
    zero-amount no-op, so the selection filters all of them, no bond issue
    fires, and the log stays empty. -/
theorem C9_zero_flows_filtered_witness :
    stepCore c9ZeroConfig defaultChartLedger 0 =
      Except.ok (defaultChartLedger,
        stepFlows2 c9ZeroConfig 0 defaultChartLedger.snapshot
          ++ [("bond_issuance", 0)])
  ∧ logOnlyNonempty defaultChartLedger.transactions
      defaultChartLedger.transactions
  ∧ (tx_government_spending 0).postings = [] := by
  have htxs : select_transactions
      (stepTxs c9ZeroConfig 0 defaultChartLedger.snapshot) = [] := by
    simp [stepTxs, buildStepTxs, stepFlows2, stepFlows1, select_transactions,
      resolve_loan_change, resolve_private_loan_change, resolve_gov_spending,
      resolve_tax, c9ZeroConfig, lookupD, lookupA, get_balance,
      tx_loan_creation, tx_private_loan_creation, tx_interest_on_loans,
      tx_interest_on_deposits, tx_interest_on_reserves, tx_interest_on_bonds,
      tx_government_spending, tx_taxes]
  have hgap : get_balance defaultChartLedger.snapshot "Government" "TGA" = 0 := by
    simp [defaultChartLedger, default_chart, make_sector, defaultInitial,
      ModelConfig.resolve_initial, Ledger.snapshot, get_balance, lookupD, lookupA]
  have hrun : stepCore c9ZeroConfig defaultChartLedger 0 =
      Except.ok (defaultChartLedger,
        stepFlows2 c9ZeroConfig 0 defaultChartLedger.snapshot
          ++ [("bond_issuance", 0)]) := by
    unfold stepCore
    simp only [htxs, List.foldlM_nil, except_pure_eq, hgap]
    norm_num [c9ZeroConfig]
  exact ⟨hrun,
    C9_zero_flows_filtered.2.2.2.2.2.2.2.2.2.2.2.2.2.2.2 c9ZeroConfig
      defaultChartLedger 0 _ hrun,
    C9_zero_flows_filtered.1⟩

/-- A configuration whose tax override returns a negative number. -/
def c7NegTaxConfig : ModelConfig := { tax_fn := some (fun _ _ => -1) }

/-- C7 counterexample: with a tax override configured, _resolve_tax
    returns the override's value unclamped, so a configuration whose
    override returns -1 yields negative taxes, refuting non-negativity
    for all configurations. -/
theorem C7_counterexample :
    resolve_tax c7NegTaxConfig 0 [] [] = -1
      ∧ ¬(0 ≤ resolve_tax c7NegTaxConfig 0 [] []) := by
  constructor
  · rfl
  · rw [show resolve_tax c7NegTaxConfig 0 [] [] = -1 from rfl]
    norm_num

/-- C7 (amended): without a tax override the resolved tax equals
    max(0, tax_rate * (gov_spending + interest_on_deposits +
    interest_on_bonds - interest_on_loans)) over this period's
    already-resolved flow amounts and is therefore nonnegative; with an
    override configured the resolved tax is exactly the override's return
    value, which the code does not clamp and which may be negative. -/
theorem C7_taxes (cfg : ModelConfig) (t : Nat)
    (balances flows : List (String × ℚ)) :
    (cfg.tax_fn = none →
        resolve_tax cfg t balances flows =
          max 0 (cfg.tax_rate * (lookupD flows "gov_spending" 0
            + lookupD flows "interest_on_deposits" 0
            + lookupD flows "interest_on_bonds" 0
            - lookupD flows "interest_on_loans" 0))
        ∧ 0 ≤ resolve_tax cfg t balances flows)
  ∧ (∀ f, cfg.tax_fn = some f →
        resolve_tax cfg t balances flows = f t balances) := by
  constructor
  · intro h
    have hval : resolve_tax cfg t balances flows =
        max 0 (cfg.tax_rate * (lookupD flows "gov_spending" 0
          + lookupD flows "interest_on_deposits" 0
          + lookupD flows "interest_on_bonds" 0
          - lookupD flows "interest_on_loans" 0)) := by
      rw [resolve_tax]
      simp only [h]
    refine ⟨hval, ?_⟩
    rw [hval]
    exact le_max_left 0 _
  · intro f h
    rw [resolve_tax]
    simp only [h]

/-- C7 witness: the default configuration has no override and resolves a
    nonnegative tax; the negative-override configuration resolves exactly
    its override's value. -/
theorem C7_taxes_witness :
    ({} : ModelConfig).tax_fn = none
  ∧ resolve_tax {} 0 [] [] =
      max 0 (({} : ModelConfig).tax_rate * (lookupD ([] : List (String × ℚ))
        "gov_spending" 0 + lookupD ([] : List (String × ℚ))
        "interest_on_deposits" 0 + lookupD ([] : List (String × ℚ))
        "interest_on_bonds" 0 - lookupD ([] : List (String × ℚ))
        "interest_on_loans" 0))
  ∧ 0 ≤ resolve_tax {} 0 [] []
  ∧ resolve_tax c7NegTaxConfig 0 [] [] = (fun (_ : Nat) (_ : List (String × ℚ)) =>
      (-1 : ℚ)) 0 [] := by
  obtain ⟨h1, h2⟩ := (C7_taxes {} 0 [] []).1 rfl
  exact ⟨rfl, h1, h2, (C7_taxes c7NegTaxConfig 0 [] []).2 _ rfl⟩

/-- The seventeen balances of a default-chart-shaped ledger. -/
structure ChartBal : Type where
  pDep : ℚ
  pLoans : ℚ
  pBonds : ℚ
  pCur : ℚ
  pNW : ℚ
  bLoans : ℚ
  bRes : ℚ
  bDep : ℚ
  bEq : ℚ
  gTGA : ℚ
  gBonds : ℚ
  gEq : ℚ
  cRes : ℚ
  cCur : ℚ
  cTGA : ℚ
  cBonds : ℚ
  cEq : ℚ

/-- The default chart with the given seventeen balances. -/
def chartShape (q : ChartBal) : List (String × SectorLedger) :=
  [("Private", { name := "Private", accounts :=
      [("Deposits", { name := "Deposits", category := .asset, balance := q.pDep }),
       ("Loans", { name := "Loans", category := .liability, balance := q.pLoans }),
       ("GovBonds", { name := "GovBonds", category := .asset, balance := q.pBonds }),
       ("Currency", { name := "Currency", category := .asset, balance := q.pCur }),
       ("NetWorth", { name := "NetWorth", category := .equity, balance := q.pNW })] }),
   ("Banks", { name := "Banks", accounts :=
      [("Loans", { name := "Loans", category := .asset, balance := q.bLoans }),
       ("Reserves", { name := "Reserves", category := .asset, balance := q.bRes }),
       ("Deposits", { name := "Deposits", category := .liability, balance := q.bDep }),
       ("BankEquity", { name := "BankEquity", category := .equity, balance := q.bEq })] }),
   ("Government", { name := "Government", accounts :=
      [("TGA", { name := "TGA", category := .asset, balance := q.gTGA }),
       ("GovBonds", { name := "GovBonds", category := .liability, balance := q.gBonds }),
       ("GovEquity", { name := "GovEquity", category := .equity, balance := q.gEq })] }),
   ("CentralBank", { name := "CentralBank", accounts :=
      [("Reserves", { name := "Reserves", category := .liability, balance := q.cRes }),
       ("Currency", { name := "Currency", category := .liability, balance := q.cCur }),
       ("TGA", { name := "TGA", category := .liability, balance := q.cTGA }),
       ("GovBonds", { name := "GovBonds", category := .asset, balance := q.cBonds }),
       ("CBEq", { name := "CBEq", category := .equity, balance := q.cEq })] })]

theorem acct_skel_nil_inv {xs : List (String × Account)}
    (h : acctSkeleton xs = []) : xs = [] := by
  cases xs with
  | nil => rfl
  | cons kv ys => simp [acctSkeleton] at h

theorem acct_skel_cons_inv {xs : List (String × Account)} {k n : String}
    {c : Category} {t : List (String × String × Category)}
    (h : acctSkeleton xs = (k, n, c) :: t) :
    ∃ b ys, xs = (k, { name := n, category := c, balance := b }) :: ys
      ∧ acctSkeleton ys = t := by
  cases xs with
  | nil => simp [acctSkeleton] at h
  | cons kv ys =>
    rw [acctSkeleton, List.map_cons] at h
    injection h with h1 h2
    obtain ⟨k2, a⟩ := kv
    obtain ⟨an, ac, ab⟩ := a
    simp only [Prod.mk.injEq] at h1
    obtain ⟨rfl, rfl, rfl⟩ := h1
    exact ⟨ab, ys, rfl, h2⟩

theorem sec_skel_cons_inv {xs : List (String × SectorLedger)} {k n : String}
    {ask : List (String × String × Category)}
    {t : List (String × String × List (String × String × Category))}
    (h : xs.map (fun kv => (kv.1, kv.2.name, acctSkeleton kv.2.accounts))
      = (k, n, ask) :: t) :
    ∃ acc ys, xs = (k, { name := n, accounts := acc }) :: ys
      ∧ acctSkeleton acc = ask
      ∧ ys.map (fun kv => (kv.1, kv.2.name, acctSkeleton kv.2.accounts)) = t := by
  cases xs with
  | nil => simp at h
  | cons kv ys =>
    rw [List.map_cons] at h
    injection h with h1 h2
    obtain ⟨k2, s⟩ := kv
    obtain ⟨sn, sacc⟩ := s
    simp only [Prod.mk.injEq] at h1
    obtain ⟨rfl, rfl, hask⟩ := h1
    exact ⟨sacc, ys, rfl, hask, h2⟩

theorem sec_skel_nil_inv {xs : List (String × SectorLedger)}
    (h : xs.map (fun kv => (kv.1, kv.2.name, acctSkeleton kv.2.accounts)) = []) :
    xs = [] := by
  cases xs with
  | nil => rfl
  | cons kv ys => simp at h

/-- A ledger with the default chart's skeleton is the default chart over
    some balances. -/
theorem skeleton_chart_inv {l : Ledger}
    (h : l.skeleton = defaultChartLedger.skeleton) :
    ∃ q : ChartBal, l.sectors = chartShape q := by
  have hd : defaultChartLedger.skeleton =
      [("Private", "Private",
         [("Deposits", "Deposits", Category.asset),
          ("Loans", "Loans", Category.liability),
          ("GovBonds", "GovBonds", Category.asset),
          ("Currency", "Currency", Category.asset),
          ("NetWorth", "NetWorth", Category.equity)]),
       ("Banks", "Banks",
         [("Loans", "Loans", Category.asset),
          ("Reserves", "Reserves", Category.asset),
          ("Deposits", "Deposits", Category.liability),
          ("BankEquity", "BankEquity", Category.equity)]),
       ("Government", "Government",
         [("TGA", "TGA", Category.asset),
          ("GovBonds", "GovBonds", Category.liability),
          ("GovEquity", "GovEquity", Category.equity)]),
       ("CentralBank", "CentralBank",
         [("Reserves", "Reserves", Category.liability),
          ("Currency", "Currency", Category.liability),
          ("TGA", "TGA", Category.liability),
          ("GovBonds", "GovBonds", Category.asset),
          ("CBEq", "CBEq", Category.equity)])] := rfl
  rw [hd, Ledger.skeleton] at h
  obtain ⟨acc1, ys1, hxs1, hask1, h⟩ := sec_skel_cons_inv h
  obtain ⟨acc2, ys2, hxs2, hask2, h⟩ := sec_skel_cons_inv h
  obtain ⟨acc3, ys3, hxs3, hask3, h⟩ := sec_skel_cons_inv h
  obtain ⟨acc4, ys4, hxs4, hask4, h⟩ := sec_skel_cons_inv h
  have hnil := sec_skel_nil_inv h
  obtain ⟨b1, r1, hacc1, hask1⟩ := acct_skel_cons_inv hask1
  obtain ⟨b2, r1, hacc1b, hask1⟩ := acct_skel_cons_inv hask1
  obtain ⟨b3, r1b, hacc1c, hask1⟩ := acct_skel_cons_inv hask1
  obtain ⟨b4, r1c, hacc1d, hask1⟩ := acct_skel_cons_inv hask1
  obtain ⟨b5, r1d, hacc1e, hask1⟩ := acct_skel_cons_inv hask1
  have hn1 := acct_skel_nil_inv hask1
  obtain ⟨b6, r2, hacc2a, hask2⟩ := acct_skel_cons_inv hask2
  obtain ⟨b7, r2a, hacc2b, hask2⟩ := acct_skel_cons_inv hask2
  obtain ⟨b8, r2b, hacc2c, hask2⟩ := acct_skel_cons_inv hask2
  obtain ⟨b9, r2c, hacc2d, hask2⟩ := acct_skel_cons_inv hask2
  have hn2 := acct_skel_nil_inv hask2
  obtain ⟨b10, r3, hacc3a, hask3⟩ := acct_skel_cons_inv hask3
  obtain ⟨b11, r3a, hacc3b, hask3⟩ := acct_skel_cons_inv hask3
  obtain ⟨b12, r3b, hacc3c, hask3⟩ := acct_skel_cons_inv hask3
  have hn3 := acct_skel_nil_inv hask3
  obtain ⟨b13, r4, hacc4a, hask4⟩ := acct_skel_cons_inv hask4
  obtain ⟨b14, r4a, hacc4b, hask4⟩ := acct_skel_cons_inv hask4
  obtain ⟨b15, r4b, hacc4c, hask4⟩ := acct_skel_cons_inv hask4
  obtain ⟨b16, r4c, hacc4d, hask4⟩ := acct_skel_cons_inv hask4
  obtain ⟨b17, r4d, hacc4e, hask4⟩ := acct_skel_cons_inv hask4
  have hn4 := acct_skel_nil_inv hask4
  refine ⟨⟨b1, b2, b3, b4, b5, b6, b7, b8, b9, b10, b11, b12, b13, b14, b15,
    b16, b17⟩, ?_⟩
  subst hn1 hn2 hn3 hn4
  subst hacc1 hacc1b hacc1c hacc1d hacc1e
  subst hacc2a hacc2b hacc2c hacc2d
  subst hacc3a hacc3b hacc3c
  subst hacc4a hacc4b hacc4c hacc4d hacc4e
  subst hnil
  rw [hxs1, hxs2, hxs3, hxs4]
  rfl

/-- The balance updates a bond issue of amount g performs on a
    default-chart-shaped ledger. -/
def bondIssueUpdate (q : ChartBal) (g : ℚ) : ChartBal :=
  { q with
    pDep := q.pDep + -g
    bDep := q.bDep + -g
    bRes := q.bRes + -g
    cRes := q.cRes + -g
    cTGA := q.cTGA + g
    gTGA := q.gTGA + g
    gBonds := q.gBonds + g
    pBonds := q.pBonds + g }

theorem chart_snapshot_tga (q : ChartBal) (log : List Transaction) :
    get_balance (Ledger.snapshot { sectors := chartShape q, transactions := log })
      "Government" "TGA" = q.gTGA := by
  simp [chartShape, Ledger.snapshot, get_balance, lookupD, lookupA]

theorem bond_issue_apply_chart (q : ChartBal) (log : List Transaction) {g : ℚ}
    (hg : g ≠ 0) :
    Ledger.apply { sectors := chartShape q, transactions := log }
        (tx_bond_issue g) (1/1000000) =
      .ok { sectors := chartShape (bondIssueUpdate q g),
            transactions := log ++ [tx_bond_issue g] } := by
  have htot : (tx_bond_issue g).total
      { sectors := chartShape q, transactions := log } = .ok 0 := by
    simp [Transaction.total, tx_bond_issue, hg, totalStep, chartShape, lookupA,
      CATEGORY_SIGN, List.foldlM_cons, List.foldlM_nil, except_bind_ok,
      except_pure_eq]
  have hps : Ledger.applyPostings
      { sectors := chartShape q, transactions := log }
      (tx_bond_issue g).postings =
      .ok { sectors := chartShape (bondIssueUpdate q g), transactions := log } := by
    simp [Ledger.applyPostings, tx_bond_issue, hg, Ledger.applyPosting,
      SectorLedger.applyAcc, updateBal, updateSec, lookupA, chartShape,
      bondIssueUpdate, List.foldlM_cons, List.foldlM_nil, except_bind_ok,
      except_pure_eq]
  rw [Ledger.apply]
  simp only [htot]
  rw [if_neg (by norm_num)]
  simp only [hps]

/-- C5: whenever step's transaction-and-financing stage completes on a
    default-chart-shaped ledger, the Government TGA balance ends within
    the 1e-6 tolerance of tga_target; the stage computes
    tga_gap = tga_target minus the post-transaction TGA balance and, when
    |tga_gap| exceeds the tolerance, applies a bond issue of exactly
    tga_gap, which adds tga_gap to Government:TGA. -/
theorem C5_tga_financing {cfg : ModelConfig} {l : Ledger} {t : Nat}
    {r : Ledger × List (String × ℚ)}
    (hskel : l.skeleton = defaultChartLedger.skeleton)
    (h : stepCore cfg l t = .ok r) :
    |cfg.tga_target - get_balance r.1.snapshot "Government" "TGA"| ≤ 1/1000000
      ∧ ∃ l1, (select_transactions (stepTxs cfg t l.snapshot)).foldlM
          (fun l tx => Ledger.apply l tx) l = .ok l1
        ∧ ((|cfg.tga_target - get_balance l1.snapshot "Government" "TGA"|
              > 1/1000000
            ∧ l1.apply (tx_bond_issue (cfg.tga_target
                - get_balance l1.snapshot "Government" "TGA")) = .ok r.1)
          ∨ (|cfg.tga_target - get_balance l1.snapshot "Government" "TGA"|
              ≤ 1/1000000
            ∧ r.1 = l1)) := by
  obtain ⟨l1, hf, hrest⟩ := stepCore_ok_dest h
  obtain ⟨-, hskel1⟩ := foldl_apply_ok hf
  obtain ⟨q, hq⟩ := skeleton_chart_inv (hskel1.trans hskel)
  have hl1 : l1 = { sectors := chartShape q, transactions := l1.transactions } := by
    cases l1
    simp only at hq
    rw [hq]
  rcases hrest with ⟨hgap, hb, -⟩ | ⟨hgap, hr1, -⟩
  · have htga : get_balance l1.snapshot "Government" "TGA" = q.gTGA := by
      rw [hl1]
      exact chart_snapshot_tga q _
    have hg0 : cfg.tga_target - get_balance l1.snapshot "Government" "TGA" ≠ 0 := by
      intro h0
      rw [h0] at hgap
      norm_num at hgap
    have hg0' : cfg.tga_target - q.gTGA ≠ 0 := by
      rw [← htga]
      exact hg0
    have hb' := hb
    rw [htga, hl1] at hb'
    rw [bond_issue_apply_chart q _ hg0'] at hb'
    have hr1 := (Except.ok.inj hb').symm
    refine ⟨?_, l1, hf, Or.inl ⟨hgap, hb⟩⟩
    rw [hr1, chart_snapshot_tga]
    rw [show (bondIssueUpdate q (cfg.tga_target - q.gTGA)).gTGA =
      q.gTGA + (cfg.tga_target - q.gTGA) from rfl]
    ring_nf
    norm_num
  · refine ⟨?_, l1, hf, Or.inr ⟨not_lt.mp hgap, hr1⟩⟩
    rw [hr1]
    exact not_lt.mp hgap

/-- C5 witness: the zero-flow configuration on the default chart, where
    the gap is already 0 so no bond fires and the TGA is at target. -/
theorem C5_tga_financing_witness :
    defaultChartLedger.skeleton = defaultChartLedger.skeleton
  ∧ stepCore c9ZeroConfig defaultChartLedger 0 =
      Except.ok (defaultChartLedger,
        stepFlows2 c9ZeroConfig 0 defaultChartLedger.snapshot
          ++ [("bond_issuance", 0)])
  ∧ |c9ZeroConfig.tga_target
      - get_balance defaultChartLedger.snapshot "Government" "TGA"|
      ≤ 1/1000000 := by
  have htxs : select_transactions
      (stepTxs c9ZeroConfig 0 defaultChartLedger.snapshot) = [] := by
    simp [stepTxs, buildStepTxs, stepFlows2, stepFlows1, select_transactions,
      resolve_loan_change, resolve_private_loan_change, resolve_gov_spending,
      resolve_tax, c9ZeroConfig, lookupD, lookupA, get_balance,
      tx_loan_creation, tx_private_loan_creation, tx_interest_on_loans,
      tx_interest_on_deposits, tx_interest_on_reserves, tx_interest_on_bonds,
      tx_government_spending, tx_taxes]
  have hgap : get_balance defaultChartLedger.snapshot "Government" "TGA" = 0 := by
    simp [defaultChartLedger, default_chart, make_sector, defaultInitial,
      ModelConfig.resolve_initial, Ledger.snapshot, get_balance, lookupD, lookupA]
  have hrun : stepCore c9ZeroConfig defaultChartLedger 0 =
      Except.ok (defaultChartLedger,
        stepFlows2 c9ZeroConfig 0 defaultChartLedger.snapshot
          ++ [("bond_issuance", 0)]) := by
    unfold stepCore
    simp only [htxs, List.foldlM_nil, except_pure_eq, hgap]
    norm_num [c9ZeroConfig]
  exact ⟨rfl, hrun, (C5_tga_financing rfl hrun).1⟩

/-- A transaction produced by one of the fourteen flow constructors. -/
def CatalogueTx (tx : Transaction) : Prop :=
  ∃ a, tx = tx_government_spending a ∨ tx = tx_taxes a
    ∨ tx = tx_loan_creation a ∨ tx = tx_loan_repayment a
    ∨ tx = tx_private_loan_creation a ∨ tx = tx_private_loan_repayment a
    ∨ tx = tx_interest_on_loans a ∨ tx = tx_interest_on_deposits a
    ∨ tx = tx_interest_on_reserves a ∨ tx = tx_interest_on_bonds a
    ∨ tx = tx_bond_issue a ∨ tx = tx_bond_sale_to_cb a
    ∨ tx = tx_bank_debt_issue a ∨ tx = tx_bank_debt_repayment a

/-- Ledger states reachable in the default simulation: the default chart
    over the default initial balances, extended by successful catalogue
    transaction applications at the engine's tolerance and by equity
    recomputations.  Every ledger MoneySystemModel ever holds is of this
    form. -/
inductive Reach : Ledger → Prop
  | base : Reach defaultChartLedger
  | applyTx {l l' : Ledger} {tx : Transaction} : Reach l → CatalogueTx tx →
      Ledger.apply l tx (1/1000000) = .ok l' → Reach l'
  | recompute {l l' : Ledger} : Reach l →
      Ledger.recompute_equity l = .ok l' → Reach l'

theorem netTotal_default : netTotal defaultChartLedger = 0 := by
  simp [netTotal, defaultChartLedger, default_chart, make_sector,
    defaultInitial, ModelConfig.resolve_initial, SectorLedger.net_position,
    SectorLedger.assets_total, SectorLedger.liabilities_total, sumCat,
    lookupD, lookupA]

/-- Catalogue postings never touch equity accounts of the default chart
    (and postings to accounts absent from it weigh 0), so their
    net-position-weighted sum vanishes. -/
theorem catalogue_neSum_zero {l : Ledger} {tx : Transaction}
    (hcat : CatalogueTx tx) (hskel : l.skeleton = defaultChartLedger.skeleton) :
    neSum l tx.postings = 0 := by
  have hcong : neSum l tx.postings = neSum defaultChartLedger tx.postings :=
    neSum_congr hskel tx.postings
  rw [hcong]
  obtain ⟨a, hc⟩ := hcat
  by_cases ha : a = 0
  · subst ha
    rcases hc with rfl | rfl | rfl | rfl | rfl | rfl | rfl | rfl | rfl | rfl
      | rfl | rfl | rfl | rfl <;>
      simp [neSum, tx_government_spending, tx_taxes, tx_loan_creation,
        tx_loan_repayment, tx_private_loan_creation, tx_private_loan_repayment,
        tx_interest_on_loans, tx_interest_on_deposits, tx_interest_on_reserves,
        tx_interest_on_bonds, tx_bond_issue, tx_bond_sale_to_cb,
        tx_bank_debt_issue, tx_bank_debt_repayment]
  · rcases hc with rfl | rfl | rfl | rfl | rfl | rfl | rfl | rfl | rfl | rfl
      | rfl | rfl | rfl | rfl <;>
      simp [neSum, tx_government_spending, tx_taxes, tx_loan_creation,
        tx_loan_repayment, tx_private_loan_creation, tx_private_loan_repayment,
        tx_interest_on_loans, tx_interest_on_deposits, tx_interest_on_reserves,
        tx_interest_on_bonds, tx_bond_issue, tx_bond_sale_to_cb,
        tx_bank_debt_issue, tx_bank_debt_repayment, ha, catOf,
        defaultChartLedger, default_chart, make_sector, defaultInitial,
        ModelConfig.resolve_initial, lookupA, lookupD, neSign]

/-- Every reachable ledger keeps the default skeleton and a zero
    net-position total. -/
theorem reach_invariant {l : Ledger} (h : Reach l) :
    l.skeleton = defaultChartLedger.skeleton ∧ netTotal l = 0 := by
  induction h with
  | base => exact ⟨rfl, netTotal_default⟩
  | applyTx hr hcat happ ih =>
    obtain ⟨hskel, hnet⟩ := ih
    obtain ⟨-, hskel', hnet', -, -⟩ := apply_ok_dest happ
    refine ⟨hskel'.trans hskel, ?_⟩
    rw [hnet', hnet, catalogue_neSum_zero hcat hskel]
    ring
  | recompute hr hrec ih =>
    obtain ⟨hskel, hnet⟩ := ih
    obtain ⟨-, -, hskel', hnet', -⟩ := ledger_recompute_ok hrec
    exact ⟨hskel'.trans hskel, hnet'.trans hnet⟩

/-- C6: every reachable ledger of the default simulation satisfies the
    global accounting identity: the sum of all sectors' net positions is
    exactly 0, and the metrics mapping computed by _compute_metrics
    carries a Sector_Balance_Check of exactly 0 (NonGov_NFA + Public_NFP
    cancel). -/
theorem C6_sector_balance {l : Ledger} (h : Reach l) :
    netTotal l = 0
  ∧ ∃ m, compute_metrics l.snapshot l = .ok m
      ∧ lookupD m "Sector_Balance_Check" 0 = 0 := by
  obtain ⟨hskel, hnet⟩ := reach_invariant h
  obtain ⟨q, hq⟩ := skeleton_chart_inv hskel
  have hl : l = { sectors := chartShape q, transactions := l.transactions } := by
    cases l
    simp only at hq
    rw [hq]
  refine ⟨hnet, ?_⟩
  have hnet' :
      netTotal { sectors := chartShape q, transactions := l.transactions } = 0 := by
    rw [← hl]
    exact hnet
  rw [hl]
  cases hcm : compute_metrics
      (Ledger.snapshot { sectors := chartShape q, transactions := l.transactions })
      { sectors := chartShape q, transactions := l.transactions } with
  | error e =>
    unfold compute_metrics at hcm
    simp [chartShape, lookupA] at hcm
  | ok m =>
    refine ⟨m, rfl, ?_⟩
    unfold compute_metrics at hcm
    simp [chartShape, lookupA, lookupD, get_balance, Ledger.snapshot,
      SectorLedger.net_position, SectorLedger.assets_total,
      SectorLedger.liabilities_total, sumCat] at hcm
    simp [netTotal, chartShape, SectorLedger.net_position,
      SectorLedger.assets_total, SectorLedger.liabilities_total, sumCat] at hnet'
    rw [← hcm]
    simp [lookupD, lookupA]
    linarith

/-- C6 witness: the identity at the initial reachable state. -/
theorem C6_sector_balance_witness :
    netTotal defaultChartLedger = 0
  ∧ ∃ m, compute_metrics defaultChartLedger.snapshot defaultChartLedger = .ok m
      ∧ lookupD m "Sector_Balance_Check" 0 = 0 :=
  C6_sector_balance Reach.base

/-- Balance updates of a loan creation on a default-chart-shaped ledger. -/
def loanCreationUpdate (q : ChartBal) (a : ℚ) : ChartBal :=
  { q with
    bLoans := q.bLoans + a
    pLoans := q.pLoans + a
    bDep := q.bDep + a
    pDep := q.pDep + a }

/-- Balance updates of interest on loans. -/
def interestOnLoansUpdate (q : ChartBal) (a : ℚ) : ChartBal :=
  { q with
    pDep := q.pDep + -a
    bDep := q.bDep + -a }

/-- Balance updates of interest on deposits. -/
def interestOnDepositsUpdate (q : ChartBal) (a : ℚ) : ChartBal :=
  { q with
    pDep := q.pDep + a
    bDep := q.bDep + a }

/-- Balance updates of government spending. -/
def govSpendingUpdate (q : ChartBal) (a : ℚ) : ChartBal :=
  { q with
    pDep := q.pDep + a
    bDep := q.bDep + a
    bRes := q.bRes + a
    cRes := q.cRes + a
    cTGA := q.cTGA + -a
    gTGA := q.gTGA + -a }

/-- Balance updates of taxes. -/
def taxesUpdate (q : ChartBal) (a : ℚ) : ChartBal :=
  { q with
    pDep := q.pDep + -a
    bDep := q.bDep + -a
    bRes := q.bRes + -a
    cRes := q.cRes + -a
    cTGA := q.cTGA + a
    gTGA := q.gTGA + a }

theorem loan_creation_apply_chart (q : ChartBal) (log : List Transaction) {a : ℚ}
    (ha : a ≠ 0) :
    Ledger.apply { sectors := chartShape q, transactions := log }
        (tx_loan_creation a) (1/1000000) =
      .ok { sectors := chartShape (loanCreationUpdate q a),
            transactions := log ++ [tx_loan_creation a] } := by
  have htot : (tx_loan_creation a).total
      { sectors := chartShape q, transactions := log } = .ok 0 := by
    simp [Transaction.total, tx_loan_creation, ha, totalStep, chartShape, lookupA,
      CATEGORY_SIGN, List.foldlM_cons, List.foldlM_nil, except_bind_ok,
      except_pure_eq]
  have hps : Ledger.applyPostings
      { sectors := chartShape q, transactions := log }
      (tx_loan_creation a).postings =
      .ok { sectors := chartShape (loanCreationUpdate q a), transactions := log } := by
    simp [Ledger.applyPostings, tx_loan_creation, ha, Ledger.applyPosting,
      SectorLedger.applyAcc, updateBal, updateSec, lookupA, chartShape,
      loanCreationUpdate, List.foldlM_cons, List.foldlM_nil, except_bind_ok,
      except_pure_eq]
  rw [Ledger.apply]
  simp only [htot]
  rw [if_neg (by norm_num)]
  simp only [hps]

theorem interest_on_loans_apply_chart (q : ChartBal) (log : List Transaction)
    {a : ℚ} (ha : a ≠ 0) :
    Ledger.apply { sectors := chartShape q, transactions := log }
        (tx_interest_on_loans a) (1/1000000) =
      .ok { sectors := chartShape (interestOnLoansUpdate q a),
            transactions := log ++ [tx_interest_on_loans a] } := by
  have htot : (tx_interest_on_loans a).total
      { sectors := chartShape q, transactions := log } = .ok 0 := by
    simp [Transaction.total, tx_interest_on_loans, ha, totalStep, chartShape,
      lookupA, CATEGORY_SIGN, List.foldlM_cons, List.foldlM_nil, except_bind_ok,
      except_pure_eq]
  have hps : Ledger.applyPostings
      { sectors := chartShape q, transactions := log }
      (tx_interest_on_loans a).postings =
      .ok { sectors := chartShape (interestOnLoansUpdate q a),
            transactions := log } := by
    simp [Ledger.applyPostings, tx_interest_on_loans, ha, Ledger.applyPosting,
      SectorLedger.applyAcc, updateBal, updateSec, lookupA, chartShape,
      interestOnLoansUpdate, List.foldlM_cons, List.foldlM_nil, except_bind_ok,
      except_pure_eq]
  rw [Ledger.apply]
  simp only [htot]
  rw [if_neg (by norm_num)]
  simp only [hps]

theorem interest_on_deposits_apply_chart (q : ChartBal) (log : List Transaction)
    {a : ℚ} (ha : a ≠ 0) :
    Ledger.apply { sectors := chartShape q, transactions := log }
        (tx_interest_on_deposits a) (1/1000000) =
      .ok { sectors := chartShape (interestOnDepositsUpdate q a),
            transactions := log ++ [tx_interest_on_deposits a] } := by
  have htot : (tx_interest_on_deposits a).total
      { sectors := chartShape q, transactions := log } = .ok 0 := by
    simp [Transaction.total, tx_interest_on_deposits, ha, totalStep, chartShape,
      lookupA, CATEGORY_SIGN, List.foldlM_cons, List.foldlM_nil, except_bind_ok,
      except_pure_eq]
  have hps : Ledger.applyPostings
      { sectors := chartShape q, transactions := log }
      (tx_interest_on_deposits a).postings =
      .ok { sectors := chartShape (interestOnDepositsUpdate q a),
            transactions := log } := by
    simp [Ledger.applyPostings, tx_interest_on_deposits, ha, Ledger.applyPosting,
      SectorLedger.applyAcc, updateBal, updateSec, lookupA, chartShape,
      interestOnDepositsUpdate, List.foldlM_cons, List.foldlM_nil,
      except_bind_ok, except_pure_eq]
  rw [Ledger.apply]
  simp only [htot]
  rw [if_neg (by norm_num)]
  simp only [hps]

theorem gov_spending_apply_chart (q : ChartBal) (log : List Transaction)
    {a : ℚ} (ha : a ≠ 0) :
    Ledger.apply { sectors := chartShape q, transactions := log }
        (tx_government_spending a) (1/1000000) =
      .ok { sectors := chartShape (govSpendingUpdate q a),
            transactions := log ++ [tx_government_spending a] } := by
  have htot : (tx_government_spending a).total
      { sectors := chartShape q, transactions := log } = .ok 0 := by
    simp [Transaction.total, tx_government_spending, ha, totalStep, chartShape,
      lookupA, CATEGORY_SIGN, List.foldlM_cons, List.foldlM_nil, except_bind_ok,
      except_pure_eq]
  have hps : Ledger.applyPostings
      { sectors := chartShape q, transactions := log }
      (tx_government_spending a).postings =
      .ok { sectors := chartShape (govSpendingUpdate q a), transactions := log } := by
    simp [Ledger.applyPostings, tx_government_spending, ha, Ledger.applyPosting,
      SectorLedger.applyAcc, updateBal, updateSec, lookupA, chartShape,
      govSpendingUpdate, List.foldlM_cons, List.foldlM_nil, except_bind_ok,
      except_pure_eq]
  rw [Ledger.apply]
  simp only [htot]
  rw [if_neg (by norm_num)]
  simp only [hps]

theorem taxes_apply_chart (q : ChartBal) (log : List Transaction)
    {a : ℚ} (ha : a ≠ 0) :
    Ledger.apply { sectors := chartShape q, transactions := log }
        (tx_taxes a) (1/1000000) =
      .ok { sectors := chartShape (taxesUpdate q a),
            transactions := log ++ [tx_taxes a] } := by
  have htot : (tx_taxes a).total
      { sectors := chartShape q, transactions := log } = .ok 0 := by
    simp [Transaction.total, tx_taxes, ha, totalStep, chartShape, lookupA,
      CATEGORY_SIGN, List.foldlM_cons, List.foldlM_nil, except_bind_ok,
      except_pure_eq]
  have hps : Ledger.applyPostings
      { sectors := chartShape q, transactions := log }
      (tx_taxes a).postings =
      .ok { sectors := chartShape (taxesUpdate q a), transactions := log } := by
    simp [Ledger.applyPostings, tx_taxes, ha, Ledger.applyPosting,
      SectorLedger.applyAcc, updateBal, updateSec, lookupA, chartShape,
      taxesUpdate, List.foldlM_cons, List.foldlM_nil, except_bind_ok,
      except_pure_eq]
  rw [Ledger.apply]
  simp only [htot]
  rw [if_neg (by norm_num)]
  simp only [hps]

theorem eqCount_chartShape (q : ChartBal) :
    ∀ kv ∈ chartShape q, eqCount kv.2 ≠ 0 := by
  intro kv hmem
  simp only [chartShape, List.mem_cons, List.not_mem_nil, or_false] at hmem
  rcases hmem with rfl | rfl | rfl | rfl <;> simp [eqCount, List.filter]

/-- Equity recomputation succeeds on any ledger with the default chart's
    skeleton: every sector has an equity account to absorb the residual. -/
theorem recompute_ok_of_default_skeleton {l : Ledger}
    (h : l.skeleton = defaultChartLedger.skeleton) :
    ∃ l2, l.recompute_equity = .ok l2 := by
  obtain ⟨q, hq⟩ := skeleton_chart_inv h
  have hall : ∀ kv ∈ l.sectors, ∃ y, recomputeSectorStep kv = .ok y := by
    intro kv hmem
    rw [hq] at hmem
    refine ⟨(kv.1, kv.2.recompute_equity), ?_⟩
    have hok := recompute_sector_assert_ok (eqCount_chartShape q kv hmem)
      (show (0:ℚ) ≤ 1/1000000 by norm_num)
    unfold recomputeSectorStep
    simp only [hok]
  obtain ⟨ys, hys⟩ := mapM_ok_of_all recomputeSectorStep hall
  exact ⟨_, by rw [Ledger.recompute_equity, hys]⟩

/-- Metric computation succeeds on any ledger with the default chart's
    skeleton: all four sector lookups resolve. -/
theorem metrics_ok_of_default_skeleton {l : Ledger}
    (h : l.skeleton = defaultChartLedger.skeleton) :
    ∃ m, compute_metrics l.snapshot l = .ok m := by
  obtain ⟨q, hq⟩ := skeleton_chart_inv h
  have hl : l = { sectors := chartShape q, transactions := l.transactions } := by
    cases l
    simp only at hq
    rw [hq]
  rw [hl]
  cases hcm : compute_metrics
      (Ledger.snapshot { sectors := chartShape q, transactions := l.transactions })
      { sectors := chartShape q, transactions := l.transactions } with
  | error e =>
    unfold compute_metrics at hcm
    simp [chartShape, lookupA] at hcm
  | ok m => exact ⟨m, rfl⟩


/-! C2 support: symbolic evaluation of the equity recomputation on a
    default-chart-shaped ledger, and the concrete period-0 run of the
    default model up to the point where step dereferences the None
    returned by Ledger.recompute_equity. -/

theorem recompute_equity_full {s : SectorLedger} (h : eqCount s ≠ 0) :
    s.recompute_equity =
      { s with accounts := s.accounts.map (setEquityBal
          ((s.assets_total - s.liabilities_total) / (eqCount s : ℚ))) } := by
  rw [eqCount] at h
  simp only [SectorLedger.recompute_equity, eqCount, if_neg h]

theorem recomputeSectorStep_ok_of_eq {kv : String × SectorLedger}
    (h : eqCount kv.2 ≠ 0) :
    recomputeSectorStep kv = .ok (kv.1, kv.2.recompute_equity) := by
  have hok := recompute_sector_assert_ok h (show (0:ℚ) ≤ 1/1000000 by norm_num)
  unfold recomputeSectorStep
  simp only [hok]

theorem mapM_eq_map_of_all {α β : Type} (f : α → Except LedgerError β) (g : α → β) :
    ∀ {xs : List α}, (∀ x ∈ xs, f x = .ok (g x)) → xs.mapM f = .ok (xs.map g) := by
  intro xs
  induction xs with
  | nil => intro _; rw [List.mapM_nil, List.map_nil, except_pure_eq]
  | cons x rest ih =>
    intro h
    rw [List.mapM_cons, h x (by simp), except_bind_ok,
      ih (fun y hy => h y (by simp [hy])), except_bind_ok, List.map_cons,
      except_pure_eq]

/-- The balances after one equity recomputation on a default-chart-shaped
    ledger: each sector's single equity account absorbs assets minus
    liabilities. -/
def equitySplitUpdate (q : ChartBal) : ChartBal :=
  { q with
    pNW := q.pDep + q.pBonds + q.pCur - q.pLoans
    bEq := q.bLoans + q.bRes - q.bDep
    gEq := q.gTGA - q.gBonds
    cEq := q.cBonds - (q.cRes + q.cCur + q.cTGA) }

theorem recompute_chart_full (q : ChartBal) (log : List Transaction) :
    Ledger.recompute_equity { sectors := chartShape q, transactions := log } =
      .ok { sectors := chartShape (equitySplitUpdate q), transactions := log } := by
  have hre1 : ({ name := "Private", accounts :=
      [("Deposits", { name := "Deposits", category := .asset, balance := q.pDep }),
       ("Loans", { name := "Loans", category := .liability, balance := q.pLoans }),
       ("GovBonds", { name := "GovBonds", category := .asset, balance := q.pBonds }),
       ("Currency", { name := "Currency", category := .asset, balance := q.pCur }),
       ("NetWorth", { name := "NetWorth", category := .equity, balance := q.pNW })] }
      : SectorLedger).recompute_equity
      = { name := "Private", accounts :=
      [("Deposits", { name := "Deposits", category := .asset, balance := q.pDep }),
       ("Loans", { name := "Loans", category := .liability, balance := q.pLoans }),
       ("GovBonds", { name := "GovBonds", category := .asset, balance := q.pBonds }),
       ("Currency", { name := "Currency", category := .asset, balance := q.pCur }),
       ("NetWorth", { name := "NetWorth", category := .equity,
                      balance := q.pDep + q.pBonds + q.pCur - q.pLoans })] } := by
    rw [recompute_equity_full (by simp [eqCount, List.filter])]
    simp [SectorLedger.assets_total, SectorLedger.liabilities_total, sumCat,
      setEquityBal, eqCount, List.filter]
    ring
  have hre2 : ({ name := "Banks", accounts :=
      [("Loans", { name := "Loans", category := .asset, balance := q.bLoans }),
       ("Reserves", { name := "Reserves", category := .asset, balance := q.bRes }),
       ("Deposits", { name := "Deposits", category := .liability, balance := q.bDep }),
       ("BankEquity", { name := "BankEquity", category := .equity, balance := q.bEq })] }
      : SectorLedger).recompute_equity
      = { name := "Banks", accounts :=
      [("Loans", { name := "Loans", category := .asset, balance := q.bLoans }),
       ("Reserves", { name := "Reserves", category := .asset, balance := q.bRes }),
       ("Deposits", { name := "Deposits", category := .liability, balance := q.bDep }),
       ("BankEquity", { name := "BankEquity", category := .equity,
                        balance := q.bLoans + q.bRes - q.bDep })] } := by
    rw [recompute_equity_full (by simp [eqCount, List.filter])]
    simp [SectorLedger.assets_total, SectorLedger.liabilities_total, sumCat,
      setEquityBal, eqCount, List.filter]
  have hre3 : ({ name := "Government", accounts :=
      [("TGA", { name := "TGA", category := .asset, balance := q.gTGA }),
       ("GovBonds", { name := "GovBonds", category := .liability, balance := q.gBonds }),
       ("GovEquity", { name := "GovEquity", category := .equity, balance := q.gEq })] }
      : SectorLedger).recompute_equity
      = { name := "Government", accounts :=
      [("TGA", { name := "TGA", category := .asset, balance := q.gTGA }),
       ("GovBonds", { name := "GovBonds", category := .liability, balance := q.gBonds }),
       ("GovEquity", { name := "GovEquity", category := .equity,
                       balance := q.gTGA - q.gBonds })] } := by
    rw [recompute_equity_full (by simp [eqCount, List.filter])]
    simp [SectorLedger.assets_total, SectorLedger.liabilities_total, sumCat,
      setEquityBal, eqCount, List.filter]
  have hre4 : ({ name := "CentralBank", accounts :=
      [("Reserves", { name := "Reserves", category := .liability, balance := q.cRes }),
       ("Currency", { name := "Currency", category := .liability, balance := q.cCur }),
       ("TGA", { name := "TGA", category := .liability, balance := q.cTGA }),
       ("GovBonds", { name := "GovBonds", category := .asset, balance := q.cBonds }),
       ("CBEq", { name := "CBEq", category := .equity, balance := q.cEq })] }
      : SectorLedger).recompute_equity
      = { name := "CentralBank", accounts :=
      [("Reserves", { name := "Reserves", category := .liability, balance := q.cRes }),
       ("Currency", { name := "Currency", category := .liability, balance := q.cCur }),
       ("TGA", { name := "TGA", category := .liability, balance := q.cTGA }),
       ("GovBonds", { name := "GovBonds", category := .asset, balance := q.cBonds }),
       ("CBEq", { name := "CBEq", category := .equity,
                  balance := q.cBonds - (q.cRes + q.cCur + q.cTGA) })] } := by
    rw [recompute_equity_full (by simp [eqCount, List.filter])]
    simp [SectorLedger.assets_total, SectorLedger.liabilities_total, sumCat,
      setEquityBal, eqCount, List.filter]
    ring
  have hmap := mapM_eq_map_of_all recomputeSectorStep
    (fun kv => (kv.1, kv.2.recompute_equity))
    (fun kv hkv => recomputeSectorStep_ok_of_eq (eqCount_chartShape q kv hkv))
  have hsectors : (chartShape q).map (fun kv => (kv.1, kv.2.recompute_equity))
      = chartShape (equitySplitUpdate q) := by
    simp only [chartShape, equitySplitUpdate, List.map_cons, List.map_nil]
    rw [hre1, hre2, hre3, hre4]
  rw [Ledger.recompute_equity, hmap, hsectors]

/-- The default initial balances arranged on the default chart, before the
    initial equity recomputation. -/
def qInit : ChartBal := ⟨90, 100, 0, 0, 0, 100, 0, 90, 0, 0, 0, 0, 0, 0, 0, 0, 0⟩

/-- The default initial balances after the initial equity recomputation:
    Private absorbs net worth -10, Banks equity 10. -/
def qStart : ChartBal := ⟨90, 100, 0, 0, -10, 100, 0, 90, 10, 0, 0, 0, 0, 0, 0, 0, 0⟩

/-- The ledger MoneySystemModel.__init__ builds under the default
    configuration. -/
def defaultLedger0 : Ledger := { sectors := chartShape qStart, transactions := [] }

theorem init_default_eval :
    Model.init ({} : ModelConfig) = .ok { config := {}, ledger := defaultLedger0 } := by
  have hchart : Ledger.mk (default_chart (ModelConfig.resolve_initial {})) []
      = Ledger.mk (chartShape qInit) [] := rfl
  have hq : equitySplitUpdate qInit = qStart := by
    simp [equitySplitUpdate, qInit, qStart]
    norm_num
  have hb : build_default_ledger (ModelConfig.resolve_initial {}) = .ok defaultLedger0 := by
    rw [build_default_ledger, hchart, recompute_chart_full, hq]
    rfl
  unfold Model.init
  simp only [hb]

theorem sel_default_eval :
    select_transactions (stepTxs ({} : ModelConfig) 0 defaultLedger0.snapshot) =
      [tx_loan_creation 1, tx_interest_on_loans (1/3),
       tx_interest_on_deposits (3/40), tx_government_spending 100,
       tx_taxes (11969/600)] := by
  simp [stepTxs, buildStepTxs, stepFlows2, stepFlows1, resolve_loan_change,
    resolve_private_loan_change, resolve_gov_spending, resolve_tax,
    get_balance, lookupD, lookupA, Ledger.snapshot, chartShape, qStart,
    defaultLedger0, select_transactions, tx_loan_creation,
    tx_private_loan_creation, tx_loan_repayment, tx_private_loan_repayment,
    tx_interest_on_loans, tx_interest_on_deposits, tx_interest_on_reserves,
    tx_interest_on_bonds, tx_government_spending, tx_taxes, max_def,
    List.filter]
  norm_num
  simp

/-- The chart balances after the five selected period-0 transactions. -/
def qAfterTx : ChartBal :=
  taxesUpdate (govSpendingUpdate (interestOnDepositsUpdate
    (interestOnLoansUpdate (loanCreationUpdate qStart 1) (1/3)) (3/40)) 100)
    (11969/600)

theorem fold_default_eval :
    (select_transactions (stepTxs ({} : ModelConfig) 0 defaultLedger0.snapshot)).foldlM
        (fun l tx => Ledger.apply l tx) defaultLedger0 =
      .ok (Ledger.mk (chartShape qAfterTx)
        [tx_loan_creation 1, tx_interest_on_loans (1/3),
         tx_interest_on_deposits (3/40), tx_government_spending 100,
         tx_taxes (11969/600)]) := by
  rw [sel_default_eval, show defaultLedger0 = Ledger.mk (chartShape qStart) [] from rfl]
  simp only [List.foldlM_cons, List.foldlM_nil]
  rw [loan_creation_apply_chart qStart [] (by norm_num)]
  simp only [except_bind_ok]
  rw [interest_on_loans_apply_chart _ _ (by norm_num)]
  simp only [except_bind_ok]
  rw [interest_on_deposits_apply_chart _ _ (by norm_num)]
  simp only [except_bind_ok]
  rw [gov_spending_apply_chart _ _ (by norm_num)]
  simp only [except_bind_ok]
  rw [taxes_apply_chart _ _ (by norm_num)]
  simp only [except_bind_ok, except_pure_eq]
  rw [show qAfterTx = taxesUpdate (govSpendingUpdate (interestOnDepositsUpdate
    (interestOnLoansUpdate (loanCreationUpdate qStart 1) (1/3)) (3/40)) 100)
    (11969/600) from rfl]
  simp

/-- The period-0 transaction log after the five flow transactions. -/
def log5 : List Transaction :=
  [tx_loan_creation 1, tx_interest_on_loans (1/3),
   tx_interest_on_deposits (3/40), tx_government_spending 100,
   tx_taxes (11969/600)]

theorem qAfterTx_gTGA : qAfterTx.gTGA = -(48031/600) := by
  simp [qAfterTx, taxesUpdate, govSpendingUpdate, interestOnDepositsUpdate,
    interestOnLoansUpdate, loanCreationUpdate, qStart]
  norm_num

theorem stepCore_default_eval :
    stepCore ({} : ModelConfig) defaultLedger0 0 =
      .ok (Ledger.mk (chartShape (bondIssueUpdate qAfterTx (48031/600)))
             (log5 ++ [tx_bond_issue (48031/600)]),
           stepFlows2 ({} : ModelConfig) 0 defaultLedger0.snapshot
             ++ [("bond_issuance", 48031/600)]) := by
  unfold stepCore
  simp only [fold_default_eval, show log5 = [tx_loan_creation 1,
    tx_interest_on_loans (1/3), tx_interest_on_deposits (3/40),
    tx_government_spending 100, tx_taxes (11969/600)] from rfl]
  simp only [chart_snapshot_tga, qAfterTx_gTGA,
    show ({} : ModelConfig).tga_target = (0:ℚ) from rfl]
  rw [show (0:ℚ) - -(48031/600) = 48031/600 from by norm_num]
  rw [if_pos (show |(48031/600 : ℚ)| > 1/1000000 from by
    rw [show |(48031/600 : ℚ)| = 48031/600 from abs_of_nonneg (by norm_num)]
    norm_num)]
  rw [bond_issue_apply_chart qAfterTx _ (show (48031/600 : ℚ) ≠ 0 from by norm_num)]

theorem step_default_eval :
    Model.step { config := {}, ledger := defaultLedger0 } 0 =
      .error .attributeError := by
  unfold Model.step
  simp only [stepCore_default_eval]
  simp only [recompute_chart_full]
  obtain ⟨mets, hmets⟩ := metrics_ok_of_default_skeleton
    (show (Ledger.mk (chartShape (equitySplitUpdate
        (bondIssueUpdate qAfterTx (48031/600))))
        (log5 ++ [tx_bond_issue (48031/600)])).skeleton
      = defaultChartLedger.skeleton from rfl)
  simp only [hmets, recompute_equity_ret]

theorem step_never_ok (m : Model) (t : Nat)
    (r : Model × List (String × ℚ) × List (String × ℚ) × List (String × ℚ)) :
    Model.step m t ≠ Except.ok r := by
  intro h
  unfold Model.step at h
  cases hc : stepCore m.config m.ledger t with
  | error e => simp only [hc] at h; exact absurd h (by simp)
  | ok p =>
    obtain ⟨l1, fl⟩ := p
    simp only [hc] at h
    cases hr : l1.recompute_equity with
    | error e => simp only [hr] at h; exact absurd h (by simp)
    | ok l2 =>
      simp only [hr] at h
      cases hm : compute_metrics l2.snapshot l2 with
      | error e => simp only [hm] at h; exact absurd h (by simp)
      | ok mets =>
        simp only [hm, recompute_equity_ret] at h
        exact absurd h (by simp)

/-- C2: the specification says every step(t) that reaches the
    equity-recomputation stage records per-sector equity-adjustment flows,
    appends the post-step stocks, flows and metrics to the three history
    sequences and returns them, and that step(0) under the default
    configuration and initial balances completes without error.  In the
    code Ledger.recompute_equity returns None and step immediately calls
    .items() on it: no call to step ever returns successfully, and the
    default-configuration step(0) - whose transaction, financing, equity
    and metric stages all succeed - raises AttributeError before any
    history is appended. -/
theorem C2_step_attribute_error :
    (∀ (m : Model) (t : Nat)
       (r : Model × List (String × ℚ) × List (String × ℚ) × List (String × ℚ)),
       Model.step m t ≠ Except.ok r)
    ∧ (Model.init ({} : ModelConfig) >>= fun m => Model.step m 0)
        = Except.error LedgerError.attributeError := by
  refine ⟨step_never_ok, ?_⟩
  simp only [init_default_eval, except_bind_ok]
  exact step_default_eval

end MoneySystem
